import Mathlib

/-!
# Verification of the HomeConnect device state synchronization engine

A shallow embedding of `src/homeconnect_device.js` (class `HomeConnectDevice`)
and the serialisation/teardown logic of the generic appliance accessory
(`ApplianceGeneric`).  JavaScript objects used as key/value maps become
functional stores, `undefined` becomes `Option`, thrown exceptions become
`Except`, and `setTimeout` handles become explicit pending-timer fields with
absolute fire times.  Each definition is translated from the corresponding
source function; theorems then settle the specification claims.
-/

namespace HomeConnect

/-- Constants from the top of `homeconnect_device.js`:
minimum event stream interruption before treated as appliance disconnected
(seconds). -/
def EVENT_DISCONNECT_DELAY : Nat := 3

/-- Minimum delay (seconds) before retrying a failed read of appliance state
when connected. -/
def CONNECTED_RETRY_MIN_DELAY : Nat := 5

/-- Maximum delay (seconds) before retrying a failed read of appliance state
when connected (`10 * 60`). -/
def CONNECTED_RETRY_MAX_DELAY : Nat := 10 * 60

/-- Factor by which the retry delay grows on each consecutive failure. -/
def CONNECTED_RETRY_FACTOR : Nat := 2

/-- Blackout period (seconds) for the workaround implicitly setting power
state. -/
def POWERSTATE_BLACKOUT : Nat := 2

/-- Milliseconds per second. -/
def MS : Nat := 1000

/-- A JavaScript value as stored in the item store: the engine only ever
stores enum/string values and booleans (for the sentinel `connected` key). -/
inductive Val where
  | vStr  : String → Val
  | vBool : Bool → Val
deriving DecidableEq, Repr

/-- JavaScript truthiness of an optional value (`undefined` is falsy,
`false` is falsy, a non-empty string is truthy). -/
def truthy : Option Val → Bool
  | none => false
  | some (Val.vBool b) => b
  | some (Val.vStr s) => s ≠ ""

/-- The item store `this.items`: a JavaScript object mapping item keys to
their most recent value.  Reading an absent key yields `undefined`. -/
def Store : Type := String → Option Val

/-- The empty item store (`this.items = {}` in the constructor). -/
def emptyStore : Store := fun _ => none

/-- `this.items[key] = value`: property assignment on the store object. -/
def storeSet (st : Store) (k : String) (v : Val) : Store :=
  fun q => if q = k then some v else st q

/-- `getItem(key)`: return a cached item's value (line 84). -/
def getItem (st : Store) (k : String) : Option Val := st k

@[simp] theorem storeSet_same (st : Store) (k : String) (v : Val) :
    storeSet st k v k = some v := by
  simp [storeSet]

@[simp] theorem storeSet_other (st : Store) (k q : String) (v : Val)
    (h : q ≠ k) : storeSet st k v q = st q := by
  simp [storeSet, h]

/-- An item delivered by the API or an event batch: `{ key, value }`. -/
structure Item where
  key : String
  value : Val
deriving DecidableEq, Repr

/-- Phase 1 of `update(items)` (lines 67-69): write every item of the batch
into the cached state, in batch order, before any listener is notified. -/
def writeItems (st : Store) (items : List Item) : Store :=
  items.foldl (fun s i => storeSet s i.key i.value) st

/-- A single observer notification as fired by `this.emit(item.key,
item.value)`, together with the contents of the item store visible to the
observers at the moment the notification fires. -/
structure Emit where
  key : String
  value : Val
  seen : Store

/-- The behaviour of the registered observers: `throws k v = true` means an
observer callback for key `k` throws when invoked with value `v`. -/
def ObserverBehaviour : Type := String → Val → Bool

/-- `this.emit(item.key, item.value)`: invoking the observers for an item
either returns normally or propagates an observer exception. -/
def emitOne (throws : ObserverBehaviour) (i : Item) : Except String Unit :=
  if throws i.key i.value then Except.error i.key else Except.ok ()

/-- The result of `update(items)`: the new store contents, the notification
trace, and the errors logged by the per-item `try`/`catch`. -/
structure UpdateResult where
  store : Store
  emits : List Emit
  loggedErrors : List String

/-- One iteration of the notification loop (lines 72-80): emit the item,
catching and logging any observer exception, so the loop always continues
with the next item.  The accumulator threads the current store contents
(which the loop body never modifies), the emissions so far, and the errors
logged so far. -/
def notifyStep (throws : ObserverBehaviour)
    (acc : Store × List Emit × List String) (i : Item) :
    Store × List Emit × List String :=
  match emitOne throws i with
  | Except.ok _ =>
      (acc.1, acc.2.1 ++ [⟨i.key, i.value, acc.1⟩], acc.2.2)
  | Except.error e =>
      (acc.1, acc.2.1 ++ [⟨i.key, i.value, acc.1⟩], acc.2.2 ++ [e])

/-- `update(items)` (lines 65-81): first write the cached state for all
items of the batch, then notify the listeners for each item in batch order,
logging (never propagating) observer exceptions. -/
def update (throws : ObserverBehaviour) (st : Store) (items : List Item) :
    UpdateResult :=
  let st1 := writeItems st items
  let r := items.foldl (notifyStep throws) (st1, [], [])
  { store := r.1, emits := r.2.1, loggedErrors := r.2.2 }

/-- The data-bearing stream event tags of `eventListener` (lines 689-693):
`STATUS`, `EVENT` and `NOTIFY` all apply their item batch via `update`. -/
inductive DataEventTag where
  | status | event | notify
deriving DecidableEq, Repr

/-- The `STATUS`/`EVENT`/`NOTIFY` cases of `eventListener`: all three fall
through to `this.update(event.data.items)`. -/
def eventListenerData (throws : ObserverBehaviour) (st : Store)
    (tag : DataEventTag) (items : List Item) : UpdateResult :=
  match tag with
  | DataEventTag.status => update throws st items
  | DataEventTag.event => update throws st items
  | DataEventTag.notify => update throws st items

/-- The notification loop leaves the store untouched and appends one
notification per item, each seeing the store contents the loop started
with; exactly the throwing items are appended to the error log. -/
theorem notify_foldl (throws : ObserverBehaviour) (items : List Item)
    (st1 : Store) (es : List Emit) (errs : List String) :
    items.foldl (notifyStep throws) (st1, es, errs) =
      (st1,
       es ++ items.map (fun i => ⟨i.key, i.value, st1⟩),
       errs ++ (items.filter (fun i => throws i.key i.value)).map Item.key) := by
  induction items generalizing es errs with
  | nil => simp
  | cons i rest ih =>
      simp only [List.foldl_cons]
      by_cases h : throws i.key i.value
      · rw [notifyStep, emitOne, if_pos h, ih]
        simp [h]
      · rw [notifyStep, emitOne, if_neg h, ih]
        simp [h]

@[simp] theorem update_store (throws : ObserverBehaviour) (st : Store)
    (items : List Item) :
    (update throws st items).store = writeItems st items := by
  simp [update, notify_foldl]

@[simp] theorem update_emits (throws : ObserverBehaviour) (st : Store)
    (items : List Item) :
    (update throws st items).emits =
      items.map (fun i => ⟨i.key, i.value, writeItems st items⟩) := by
  simp [update, notify_foldl]

@[simp] theorem update_loggedErrors (throws : ObserverBehaviour) (st : Store)
    (items : List Item) :
    (update throws st items).loggedErrors =
      (items.filter (fun i => throws i.key i.value)).map Item.key := by
  simp [update, notify_foldl]

/-- A key that no item of the batch writes is untouched by phase 1. -/
theorem writeItems_not_mem (st : Store) (items : List Item) (k : String)
    (h : k ∉ items.map Item.key) : writeItems st items k = st k := by
  induction items generalizing st with
  | nil => rfl
  | cons i rest ih =>
      simp only [List.map_cons, List.mem_cons, not_or] at h
      rw [writeItems, List.foldl_cons, ← writeItems, ih _ h.2,
        storeSet_other _ _ _ _ h.1]

/-- With no duplicate keys in the batch, phase 1 stores each item's own
value under its key. -/
theorem writeItems_mem_nodup (st : Store) (items : List Item) (i : Item)
    (hnd : (items.map Item.key).Nodup) (hi : i ∈ items) :
    writeItems st items i.key = some i.value := by
  induction items generalizing st with
  | nil => cases hi
  | cons j rest ih =>
      simp only [List.map_cons, List.nodup_cons] at hnd
      rcases List.mem_cons.mp hi with h | h
      · subst h
        rw [writeItems, List.foldl_cons, ← writeItems,
          writeItems_not_mem _ _ _ hnd.1, storeSet_same]
      · rw [writeItems, List.foldl_cons, ← writeItems]
        exact ih _ hnd.2 h

/-- C1: for every `STATUS`, `EVENT` or `NOTIFY` event carrying a batch of
items, the item store entry for every item of the batch is written before
any observer notification fires: the final store is the fold of all batch
writes, every notification sees exactly that fully-written store (so no
observer reads a mix of pre-batch and post-batch values for keys of the
batch), and notifications fire once per item key in the batch's given
order. -/
theorem C1_batch_store_before_notify (tag : DataEventTag)
    (throws : ObserverBehaviour) (st : Store) (items : List Item)
    (hnd : (items.map Item.key).Nodup) :
    (eventListenerData throws st tag items).store = writeItems st items
    ∧ (eventListenerData throws st tag items).emits.map
        (fun e => (e.key, e.value)) = items.map (fun i => (i.key, i.value))
    ∧ (∀ e ∈ (eventListenerData throws st tag items).emits,
        ∀ k, e.seen k = writeItems st items k)
    ∧ (∀ k ∈ items.map Item.key,
        ((eventListenerData throws st tag items).emits.map Emit.key).count k
          = 1) := by
  have hd : eventListenerData throws st tag items = update throws st items := by
    cases tag <;> rfl
  rw [hd]
  refine ⟨update_store throws st items, ?_, ?_, ?_⟩
  · rw [update_emits]
    simp
  · intro e he k
    rw [update_emits] at he
    rcases List.mem_map.mp he with ⟨i, _, hie⟩
    rw [← hie]
  · intro k hk
    have hmap : (update throws st items).emits.map Emit.key
        = items.map Item.key := by
      rw [update_emits]
      simp
    rw [hmap]
    exact List.count_eq_one_of_mem hnd hk

/-- Witness for C1 at a concrete two-item batch. -/
theorem C1_batch_store_before_notify_witness :
    (([⟨"Status.DoorState", Val.vStr "Open"⟩,
       ⟨"Status.OperationState", Val.vStr "Run"⟩] : List Item).map
        Item.key).Nodup
    ∧ ((eventListenerData (fun _ _ => false) emptyStore DataEventTag.status
          [⟨"Status.DoorState", Val.vStr "Open"⟩,
           ⟨"Status.OperationState", Val.vStr "Run"⟩]).store
        = writeItems emptyStore
            [⟨"Status.DoorState", Val.vStr "Open"⟩,
             ⟨"Status.OperationState", Val.vStr "Run"⟩]
      ∧ (eventListenerData (fun _ _ => false) emptyStore DataEventTag.status
          [⟨"Status.DoorState", Val.vStr "Open"⟩,
           ⟨"Status.OperationState", Val.vStr "Run"⟩]).emits.map
            (fun e => (e.key, e.value))
        = [("Status.DoorState", Val.vStr "Open"),
           ("Status.OperationState", Val.vStr "Run")]
      ∧ (∀ e ∈ (eventListenerData (fun _ _ => false) emptyStore
            DataEventTag.status
            [⟨"Status.DoorState", Val.vStr "Open"⟩,
             ⟨"Status.OperationState", Val.vStr "Run"⟩]).emits,
          ∀ k, e.seen k
            = writeItems emptyStore
                [⟨"Status.DoorState", Val.vStr "Open"⟩,
                 ⟨"Status.OperationState", Val.vStr "Run"⟩] k)
      ∧ (∀ k ∈ ([⟨"Status.DoorState", Val.vStr "Open"⟩,
                 ⟨"Status.OperationState", Val.vStr "Run"⟩] : List Item).map
            Item.key,
          ((eventListenerData (fun _ _ => false) emptyStore
              DataEventTag.status
              [⟨"Status.DoorState", Val.vStr "Open"⟩,
               ⟨"Status.OperationState", Val.vStr "Run"⟩]).emits.map
            Emit.key).count k = 1)) := by
  refine ⟨by decide, ?_⟩
  have h := C1_batch_store_before_notify DataEventTag.status
    (fun _ _ => false) emptyStore
    [⟨"Status.DoorState", Val.vStr "Open"⟩,
     ⟨"Status.OperationState", Val.vStr "Run"⟩] (by decide)
  refine ⟨h.1, ?_, h.2.2.1, h.2.2.2⟩
  rw [h.2.1]
  decide

/-- C10: if an observer callback throws while `update` is notifying
listeners for an item, the exception is caught inside `update` and logged
(it never reaches `update`'s caller: `update` returns a complete result),
the item's new value remains stored, and the notifications for all
remaining items of the batch still fire. -/
theorem C10_observer_throw_contained (throws : ObserverBehaviour)
    (st : Store) (items : List Item) (i : Item)
    (hnd : (items.map Item.key).Nodup) (hi : i ∈ items)
    (hthrow : throws i.key i.value = true) :
    i.key ∈ (update throws st items).loggedErrors
    ∧ getItem (update throws st items).store i.key = some i.value
    ∧ (update throws st items).store = writeItems st items
    ∧ (update throws st items).emits.map (fun e => (e.key, e.value))
        = items.map (fun j => (j.key, j.value)) := by
  refine ⟨?_, ?_, update_store throws st items, ?_⟩
  · rw [update_loggedErrors]
    exact List.mem_map.mpr ⟨i, List.mem_filter.mpr ⟨hi, by simp [hthrow]⟩, rfl⟩
  · rw [update_store]
    exact writeItems_mem_nodup st items i hnd hi
  · rw [update_emits]
    simp

/-- Witness for C10: the observer for the first item throws, yet the value
is stored, the error is logged, and the second item is still notified. -/
theorem C10_observer_throw_contained_witness :
    ((([⟨"Setting.PowerState", Val.vStr "On"⟩,
        ⟨"Status.DoorState", Val.vStr "Closed"⟩] : List Item).map
          Item.key).Nodup
      ∧ (⟨"Setting.PowerState", Val.vStr "On"⟩ : Item)
          ∈ ([⟨"Setting.PowerState", Val.vStr "On"⟩,
              ⟨"Status.DoorState", Val.vStr "Closed"⟩] : List Item)
      ∧ (fun (k : String) (_ : Val) => k = "Setting.PowerState")
          "Setting.PowerState" (Val.vStr "On") = true)
    ∧ ("Setting.PowerState"
        ∈ (update (fun k _ => k = "Setting.PowerState") emptyStore
            [⟨"Setting.PowerState", Val.vStr "On"⟩,
             ⟨"Status.DoorState", Val.vStr "Closed"⟩]).loggedErrors
      ∧ getItem (update (fun k _ => k = "Setting.PowerState") emptyStore
            [⟨"Setting.PowerState", Val.vStr "On"⟩,
             ⟨"Status.DoorState", Val.vStr "Closed"⟩]).store
          "Setting.PowerState" = some (Val.vStr "On")
      ∧ (update (fun k _ => k = "Setting.PowerState") emptyStore
            [⟨"Setting.PowerState", Val.vStr "On"⟩,
             ⟨"Status.DoorState", Val.vStr "Closed"⟩]).store
          = writeItems emptyStore
              [⟨"Setting.PowerState", Val.vStr "On"⟩,
               ⟨"Status.DoorState", Val.vStr "Closed"⟩]
      ∧ (update (fun k _ => k = "Setting.PowerState") emptyStore
            [⟨"Setting.PowerState", Val.vStr "On"⟩,
             ⟨"Status.DoorState", Val.vStr "Closed"⟩]).emits.map
              (fun e => (e.key, e.value))
          = [("Setting.PowerState", Val.vStr "On"),
             ("Status.DoorState", Val.vStr "Closed")]) := by
  refine ⟨⟨by decide, by decide, by decide⟩, ?_⟩
  have h := C10_observer_throw_contained
    (fun k _ => k = "Setting.PowerState") emptyStore
    [⟨"Setting.PowerState", Val.vStr "On"⟩,
     ⟨"Status.DoorState", Val.vStr "Closed"⟩]
    ⟨"Setting.PowerState", Val.vStr "On"⟩ (by decide) (by decide) (by decide)
  refine ⟨h.1, h.2.1, h.2.2.1, ?_⟩
  rw [h.2.2.2]
  decide

/-! ## Resynchronization sequencer (`onConnected` / `onDisconnected` /
`readAll`, lines 502-579)

Each queued action (`getAppliance`, `getStatus`, ...) is an asynchronous
transport read; for the sequencer only its outcome matters, so an action is
embedded as its outcome.  The only suspension points are the `await` of the
head action, so a concurrently detected disconnection (`setConnectedState
(false)` running `onDisconnected`) is injected during a designated await:
it sets `connected` to `false` and deletes `readAllActions`. -/

/-- The outcome of one queued read action: the transport call either
resolves or throws. -/
inductive ActionResult where
  | ok | fail
deriving DecidableEq, Repr

/-- The per-run state touched by `readAll`.  `retryDelay` embeds
`this.api.readAllRetryDelay` — note that the source stores it on the shared
API object, not on the device (see the two-instance model below). -/
structure RAState where
  readAllActions : Option (List ActionResult)
  readAllScheduled : Option Nat
  retryDelay : Option Nat
  connected : Option Bool
  itemsConn : Option Val
  publishes : List Bool
deriving DecidableEq, Repr

/-- The retry-delay expression of the `catch` branch (lines 563-568):
`readAllRetryDelay ? min(readAllRetryDelay * FACTOR, MAX) : MIN` (with
JavaScript truthiness, so an absent or zero stored delay yields the
minimum). -/
def nextRetryDelay : Option Nat → Nat
  | none => CONNECTED_RETRY_MIN_DELAY
  | some d =>
      if d ≠ 0 then min (d * CONNECTED_RETRY_FACTOR) CONNECTED_RETRY_MAX_DELAY
      else CONNECTED_RETRY_MIN_DELAY

/-- The `while` loop of `readAll` (lines 539-544).  `i` counts the awaits
performed so far and `dAt` designates the await during which a
disconnection is detected (if any).  Each iteration awaits the head action
(`await actions[0]()`), then shifts it off the captured array — the shift
is visible in `this.readAllActions` only when the field still refers to
that array (it does not once `onDisconnected` has deleted it).  Returns the
final state, the actions that were executed, and whether the loop exited by
throwing. -/
def raLoop (dAt : Option Nat) :
    Nat → Nat → RAState → List ActionResult →
    RAState × List ActionResult × Bool
  | 0, _, s, ex => (s, ex, false)
  | fuel + 1, i, s, ex =>
      match s.readAllActions with
      | some (a :: _rest) =>
          let s1 := if dAt = some i
            then { s with connected := some false, readAllActions := none }
            else s
          if a = ActionResult.fail then (s1, ex ++ [a], true)
          else
            let s2 := if dAt = some i then s1
              else { s1 with readAllActions := some _rest }
            raLoop dAt fuel (i + 1) s2 (ex ++ [a])
      | _ => (s, ex, false)

/-- Enough loop fuel for one `readAll` invocation: one unit per queued
action plus one final check of the loop condition. -/
def readAllFuel (s : RAState) : Nat :=
  match s.readAllActions with
  | some l => l.length + 1
  | none => 1

/-- The code after the `while` loop of `readAll` (lines 546-578).  If the
loop threw: while still connected, grow the retry delay
(`readAllRetryDelay`) and schedule a retry of the entire remaining queue
after that delay; otherwise (disconnected) just drop the schedule.  If the
loop finished: clear the schedule, and when the queue was not abandoned
(`this.readAllActions` still truthy) reset the retry delay and publish
`connected=true` when the device is connected but the stored item is not
yet true. -/
def readAllFinish (s1 : RAState) (ex : List ActionResult) (threw : Bool) :
    RAState × List ActionResult :=
  if threw then
    if s1.connected = some true then
      ({ s1 with retryDelay := some (nextRetryDelay s1.retryDelay),
                 readAllScheduled := some (nextRetryDelay s1.retryDelay) },
       ex)
    else ({ s1 with readAllScheduled := none }, ex)
  else
    match s1.readAllActions with
    | some _ =>
        if s1.connected = some true ∧ ¬ truthy s1.itemsConn then
          ({ s1 with readAllScheduled := none, retryDelay := none,
                     itemsConn := some (Val.vBool true),
                     publishes := s1.publishes ++ [true] }, ex)
        else ({ s1 with readAllScheduled := none, retryDelay := none }, ex)
    | none => ({ s1 with readAllScheduled := none }, ex)

/-- One invocation of `readAll` (lines 536-579): run the pending-read loop,
then dispatch on its outcome as the source's `try`/`catch` does. -/
def readAllOnce (s : RAState) (dAt : Option Nat) :
    RAState × List ActionResult :=
  readAllFinish (raLoop dAt (readAllFuel s) 0 s []).1
    (raLoop dAt (readAllFuel s) 0 s []).2.1
    (raLoop dAt (readAllFuel s) 0 s []).2.2

/-- The retry delay held by the shared API object after `k` consecutive
`readAll` failures while connected, starting from a fresh (absent) value:
`readAll` replaces the stored delay by `nextRetryDelay` of it on every
consecutive failure. -/
def retryDelayAfterFailures : Nat → Option Nat
  | 0 => none
  | k + 1 => some (nextRetryDelay (retryDelayAfterFailures k))

/-- The loop with no disconnection runs an all-`ok` queue to completion:
the queue empties and nothing throws. -/
theorem raLoop_allOk (q : List ActionResult) :
    ∀ (fuel i : Nat) (s : RAState) (ex : List ActionResult),
    s.readAllActions = some q → (∀ a ∈ q, a = ActionResult.ok) →
    q.length < fuel →
    raLoop none fuel i s ex
      = ({ s with readAllActions := some [] }, ex ++ q, false) := by
  induction q with
  | nil =>
      intro fuel i s ex hq _ hf
      match fuel, hf with
      | fuel + 1, _ =>
        have hs : ({ s with readAllActions := some [] } : RAState) = s := by
          rw [← hq]
        rw [raLoop]
        simp [hq, hs]
  | cons a rest ih =>
      intro fuel i s ex hq hok hf
      match fuel, hf with
      | fuel + 1, hf =>
        have ha : a = ActionResult.ok := hok a (List.mem_cons_self a rest)
        rw [raLoop]
        simp only [hq, ha]
        rw [if_neg (by simp), if_neg (by simp)]
        simp only [reduceCtorEq, if_neg, ite_false]
        rw [ih fuel (i + 1) _ (ex ++ [ActionResult.ok]) rfl
          (fun b hb => hok b (List.mem_cons_of_mem a hb))
          (Nat.lt_of_succ_lt_succ hf)]
        simp [ha]

/-- The loop with no disconnection stops at the first failing action,
leaving the failed action at the head of the remaining queue. -/
theorem raLoop_failAt (n : Nat) :
    ∀ (fuel i : Nat) (s : RAState) (ex rest : List ActionResult),
    s.readAllActions
      = some (List.replicate n ActionResult.ok ++ ActionResult.fail :: rest) →
    n < fuel →
    raLoop none fuel i s ex
      = ({ s with readAllActions := some (ActionResult.fail :: rest) },
         ex ++ List.replicate n ActionResult.ok ++ [ActionResult.fail],
         true) := by
  induction n with
  | zero =>
      intro fuel i s ex rest hq hf
      simp only [List.replicate_zero, List.nil_append] at hq
      match fuel, hf with
      | fuel + 1, _ =>
        have hs : ({ s with
            readAllActions := some (ActionResult.fail :: rest) } : RAState)
            = s := by
          rw [← hq]
        rw [raLoop]
        simp [hq, hs]
  | succ n ih =>
      intro fuel i s ex rest hq hf
      match fuel, hf with
      | fuel + 1, hf =>
        rw [raLoop]
        simp only [List.replicate_succ, List.cons_append] at hq
        simp only [hq]
        rw [if_neg (by simp), if_neg (by simp)]
        simp only [reduceCtorEq, if_neg, ite_false]
        rw [ih fuel (i + 1) _ (ex ++ [ActionResult.ok]) rest rfl
          (Nat.lt_of_succ_lt_succ hf)]
        simp [List.replicate_succ]

/-- A disconnection detected during the await of action `n` (all earlier
actions having succeeded) leaves the device disconnected with the queue
deleted; the executed actions are exactly the first `n + 1`, and the run
throws exactly when that last awaited action failed. -/
theorem raLoop_disconnectAt (n : Nat) :
    ∀ (fuel i : Nat) (s : RAState) (ex rest : List ActionResult)
      (a : ActionResult),
    s.readAllActions = some (List.replicate n ActionResult.ok ++ a :: rest) →
    n < fuel →
    raLoop (some (i + n)) fuel i s ex
      = ({ s with connected := some false, readAllActions := none },
         ex ++ List.replicate n ActionResult.ok ++ [a],
         a == ActionResult.fail) := by
  induction n with
  | zero =>
      intro fuel i s ex rest a hq hf
      simp only [List.replicate_zero, List.nil_append] at hq
      match fuel, hf with
      | fuel + 1, _ =>
        cases a with
        | fail => simp [raLoop, hq]
        | ok =>
            match fuel with
            | 0 => simp [raLoop, hq]
            | fuel + 1 => simp [raLoop, hq]
  | succ n ih =>
      intro fuel i s ex rest a hq hf
      match fuel, hf with
      | fuel + 1, hf =>
        simp only [List.replicate_succ, List.cons_append] at hq
        have hne : ¬ (i + (n + 1) = i) := by omega
        have harg : i + (n + 1) = (i + 1) + n := by omega
        rw [raLoop]
        simp only [hq, Option.some.injEq, hne, if_false, ite_false,
          reduceCtorEq]
        rw [harg, ih fuel (i + 1) _ (ex ++ [ActionResult.ok]) rest a rfl
          (Nat.lt_of_succ_lt_succ hf)]
        simp [List.replicate_succ]

/-- Number of still-queued actions (zero once the queue is deleted). -/
def raSize (s : RAState) : Nat :=
  match s.readAllActions with
  | some l => l.length
  | none => 0

/-- Frame property of the `readAll` loop: the loop itself never touches the
publish trace, the stored `connected` item, the schedule, or the retry
delay, and on a normal (non-throwing) exit with sufficient fuel the queue
is either deleted or fully consumed. -/
theorem raLoop_frame :
    ∀ (fuel : Nat) (i : Nat) (s : RAState) (ex : List ActionResult)
      (dAt : Option Nat), raSize s < fuel →
    (raLoop dAt fuel i s ex).1.publishes = s.publishes
    ∧ (raLoop dAt fuel i s ex).1.itemsConn = s.itemsConn
    ∧ (raLoop dAt fuel i s ex).1.readAllScheduled = s.readAllScheduled
    ∧ (raLoop dAt fuel i s ex).1.retryDelay = s.retryDelay
    ∧ ((raLoop dAt fuel i s ex).2.2 = false →
        (raLoop dAt fuel i s ex).1.readAllActions = none
        ∨ (raLoop dAt fuel i s ex).1.readAllActions = some []) := by
  intro fuel
  induction fuel with
  | zero => intro i s ex dAt h; omega
  | succ fuel ih =>
      intro i s ex dAt hf
      have hsz : raSize s < fuel + 1 := hf
      match hq : s.readAllActions with
      | none =>
          rw [raLoop]
          simp [hq]
      | some [] =>
          rw [raLoop]
          simp [hq]
      | some (a :: rest) =>
          rw [raLoop]
          simp only [raSize, hq, List.length_cons] at hsz
          by_cases hd : dAt = some i
          · cases a with
            | fail => simp [hq, hd]
            | ok =>
                have h := ih (i + 1)
                  ({ s with connected := some false,
                            readAllActions := none })
                  (ex ++ [ActionResult.ok]) (some i)
                  (by simp [raSize]; omega)
                simp only [hq, hd, reduceCtorEq]
                simpa using h
          · cases a with
            | fail => simp [hq, hd]
            | ok =>
                have h := ih (i + 1) ({ s with readAllActions := some rest })
                  (ex ++ [ActionResult.ok]) dAt (by simp [raSize]; omega)
                simp only [hq, hd, reduceCtorEq]
                simpa using h

/-- A `readAll` run whose queue is `n` successful reads followed by a
failing read, with the appliance still connected and no disconnection
detected: the failed action stays at the head of the remaining queue, the
retry delay grows by `nextRetryDelay`, and a retry of the whole remaining
queue is scheduled after exactly that delay. -/
theorem readAllOnce_failRun (s : RAState) (n : Nat)
    (rest : List ActionResult) (hconn : s.connected = some true)
    (hq : s.readAllActions
      = some (List.replicate n ActionResult.ok ++ ActionResult.fail :: rest)) :
    readAllOnce s none
      = ({ s with readAllActions := some (ActionResult.fail :: rest),
                  retryDelay := some (nextRetryDelay s.retryDelay),
                  readAllScheduled := some (nextRetryDelay s.retryDelay) },
         List.replicate n ActionResult.ok ++ [ActionResult.fail]) := by
  have hfuel : n < readAllFuel s := by
    simp [readAllFuel, hq]
    omega
  have hrun := raLoop_failAt n (readAllFuel s) 0 s [] rest hq hfuel
  rw [readAllOnce, hrun]
  simp [readAllFinish, hconn]

/-- A `readAll` run whose whole queue succeeds with no disconnection: the
retry delay is deleted, the schedule is cleared, and `connected=true` is
published exactly when the appliance is connected but the stored item is
not yet truthy. -/
theorem readAllOnce_successRun (s : RAState) (q : List ActionResult)
    (hq : s.readAllActions = some q)
    (hok : ∀ a ∈ q, a = ActionResult.ok) :
    readAllOnce s none
      = (if s.connected = some true ∧ ¬ truthy s.itemsConn then
          { s with readAllActions := some [], readAllScheduled := none,
                   retryDelay := none, itemsConn := some (Val.vBool true),
                   publishes := s.publishes ++ [true] }
         else
          { s with readAllActions := some [], readAllScheduled := none,
                   retryDelay := none },
         q) := by
  have hfuel : q.length < readAllFuel s := by
    simp [readAllFuel, hq]
  have hrun := raLoop_allOk q (readAllFuel s) 0 s [] hq hok hfuel
  rw [readAllOnce, hrun]
  by_cases h1 : s.connected = some true
  · by_cases h2 : truthy s.itemsConn
    · simp [readAllFinish, h1, h2]
    · simp [readAllFinish, h1, h2]
  · simp [readAllFinish, h1]

/-- A `readAll` run during whose `n`-th awaited action (all earlier ones
having succeeded) a disconnection is detected: the queue is deleted, no
retry is scheduled, and the publish trace is untouched. -/
theorem readAllOnce_disconnectRun (s : RAState) (n : Nat) (a : ActionResult)
    (rest : List ActionResult)
    (hq : s.readAllActions
      = some (List.replicate n ActionResult.ok ++ a :: rest)) :
    readAllOnce s (some n)
      = ({ s with connected := some false, readAllActions := none,
                  readAllScheduled := none },
         List.replicate n ActionResult.ok ++ [a]) := by
  have hfuel : n < readAllFuel s := by
    simp [readAllFuel, hq]
    omega
  have hrun := raLoop_disconnectAt n (readAllFuel s) 0 s [] rest a hq hfuel
  rw [Nat.zero_add] at hrun
  rw [readAllOnce, hrun]
  cases a with
  | ok => simp [readAllFinish]
  | fail => simp [readAllFinish]

/-- C2: consecutive resynchronization failures while connected wait
`5 s, 10 s, 20 s, ...` capped at `600 s` (the stored delay after `k + 1`
consecutive failures is `min (5 * 2 ^ k) 600`); a failing run keeps the
failed action at the head of the remaining queue and schedules a retry of
the whole remaining queue after the grown delay; a successful run of the
full queue deletes the delay counter, so the next failure waits the 5 s
minimum again. -/
theorem C2_retry_backoff :
    (∀ k : Nat, retryDelayAfterFailures (k + 1)
        = some (min (CONNECTED_RETRY_MIN_DELAY * CONNECTED_RETRY_FACTOR ^ k)
            CONNECTED_RETRY_MAX_DELAY))
    ∧ (∀ (s : RAState) (n : Nat) (rest : List ActionResult),
        s.connected = some true →
        s.readAllActions = some
          (List.replicate n ActionResult.ok ++ ActionResult.fail :: rest) →
        (readAllOnce s none).1.retryDelay
            = some (nextRetryDelay s.retryDelay)
        ∧ (readAllOnce s none).1.readAllScheduled
            = some (nextRetryDelay s.retryDelay)
        ∧ (readAllOnce s none).1.readAllActions
            = some (ActionResult.fail :: rest)
        ∧ (readAllOnce s none).2
            = List.replicate n ActionResult.ok ++ [ActionResult.fail])
    ∧ (∀ (s : RAState) (q : List ActionResult),
        s.readAllActions = some q → (∀ a ∈ q, a = ActionResult.ok) →
        (readAllOnce s none).1.retryDelay = none) := by
  refine ⟨?_, ?_, ?_⟩
  · intro k
    induction k with
    | zero => decide
    | succ k ih =>
        rw [retryDelayAfterFailures, ih]
        have hd : 0 < CONNECTED_RETRY_MIN_DELAY
            * CONNECTED_RETRY_FACTOR ^ k :=
          Nat.mul_pos (by decide)
            (pow_pos (by decide : 0 < CONNECTED_RETRY_FACTOR) k)
        simp only [nextRetryDelay, CONNECTED_RETRY_MIN_DELAY,
          CONNECTED_RETRY_FACTOR, CONNECTED_RETRY_MAX_DELAY] at hd ⊢
        rw [if_pos (by omega)]
        have hmin : min (min (5 * 2 ^ k) 600 * 2) 600
            = min (5 * 2 ^ k * 2) 600 := by omega
        rw [hmin, pow_succ, Nat.mul_assoc]
  · intro s n rest hconn hq
    rw [readAllOnce_failRun s n rest hconn hq]
    exact ⟨rfl, rfl, rfl, rfl⟩
  · intro s q hq hok
    rw [readAllOnce_successRun s q hq hok]
    by_cases h1 : s.connected = some true ∧ ¬ truthy s.itemsConn
    · rw [if_pos h1]
    · rw [if_neg h1]

/-- An example state for the C2 witness after the queue has been rebuilt
following a full success, with the now-capped delay still stored. -/
def c2Reset : RAState :=
  { readAllActions := some [ActionResult.ok]
    readAllScheduled := some 0
    retryDelay := some 600
    connected := some true
    itemsConn := some (Val.vBool true)
    publishes := [] }

/-- An example state for the C2 witness: one successful read, then a
failing one, with a 5-second retry delay already stored from an earlier
failure. -/
def c2State : RAState :=
  { readAllActions := some
      [ActionResult.ok, ActionResult.fail, ActionResult.ok],
    readAllScheduled := some 0, retryDelay := some 5,
    connected := some true, itemsConn := some (Val.vBool true),
    publishes := [] }

/-- Witness for C2: the second consecutive failure reschedules at 10 s with
the failed action still at the head; three consecutive failures from a
fresh delay end at 20 s; a fully successful queue resets the delay. -/
theorem C2_retry_backoff_witness :
    (c2State.connected = some true
      ∧ c2State.readAllActions = some
          (List.replicate 1 ActionResult.ok ++ ActionResult.fail
            :: [ActionResult.ok])
      ∧ c2Reset.readAllActions = some [ActionResult.ok]
      ∧ (∀ a ∈ [ActionResult.ok], a = ActionResult.ok))
    ∧ ((readAllOnce c2State none).1.retryDelay = some 10
      ∧ (readAllOnce c2State none).1.readAllScheduled = some 10
      ∧ (readAllOnce c2State none).1.readAllActions
          = some [ActionResult.fail, ActionResult.ok]
      ∧ retryDelayAfterFailures 3 = some 20
      ∧ retryDelayAfterFailures 8 = some 600
      ∧ (readAllOnce c2Reset none).1.retryDelay = none) := by
  have h := C2_retry_backoff
  have h2 := h.2.1 c2State 1 [ActionResult.ok] rfl (by decide)
  have h3 := h.2.2 c2Reset [ActionResult.ok] rfl (by decide)
  refine ⟨⟨rfl, by decide, rfl, by decide⟩, ?_, ?_, ?_, ?_, ?_, h3⟩
  · exact h2.1.trans (by decide)
  · exact h2.2.1.trans (by decide)
  · exact h2.2.2.1.trans (by decide)
  · exact (h.1 2).trans (by decide)
  · exact (h.1 7).trans (by decide)

/-- C3: if a disconnection is detected while a resynchronization queue is
in flight, the remaining queued actions are discarded and never executed
(only the first `n + 1` actions ran), no retry is scheduled, and no
`connected=true` item is published; moreover any `readAll` run that does
publish `connected=true` has consumed its entire queue successfully, so no
such publish can occur until a fresh connect-triggered resynchronization
runs to completion. -/
theorem C3_disconnect_abandons_resync (s : RAState) (n : Nat)
    (a : ActionResult) (rest : List ActionResult)
    (hq : s.readAllActions
      = some (List.replicate n ActionResult.ok ++ a :: rest)) :
    (readAllOnce s (some n)).1.readAllActions = none
    ∧ (readAllOnce s (some n)).2 = List.replicate n ActionResult.ok ++ [a]
    ∧ (readAllOnce s (some n)).1.readAllScheduled = none
    ∧ (readAllOnce s (some n)).1.publishes = s.publishes
    ∧ (readAllOnce s (some n)).1.connected = some false
    ∧ (∀ (s' : RAState) (dAt' : Option Nat) (q : List ActionResult),
        s'.readAllActions = some q →
        (readAllOnce s' dAt').1.publishes ≠ s'.publishes →
        (readAllOnce s' dAt').1.readAllActions = some []
        ∧ (readAllOnce s' dAt').1.publishes = s'.publishes ++ [true]
        ∧ (readAllOnce s' dAt').1.itemsConn = some (Val.vBool true)) := by
  rw [readAllOnce_disconnectRun s n a rest hq]
  refine ⟨rfl, rfl, rfl, rfl, rfl, ?_⟩
  intro s' dAt' q hq' hpub
  have hsz : raSize s' < readAllFuel s' := by
    simp [raSize, readAllFuel, hq']
  have hfr := raLoop_frame (readAllFuel s') 0 s' [] dAt' hsz
  rw [readAllOnce] at hpub ⊢
  obtain ⟨hp, hic, -, -, himp⟩ := hfr
  generalize hgen : raLoop dAt' (readAllFuel s') 0 s' [] = t
    at hp hic himp hpub ⊢
  obtain ⟨s1, ex, threw⟩ := t
  simp only at hp hic himp hpub ⊢
  cases threw with
  | true =>
      rw [readAllFinish] at hpub
      simp only [if_pos rfl] at hpub
      by_cases hc : s1.connected = some true
      · rw [if_pos hc] at hpub
        exact absurd hp hpub
      · rw [if_neg hc] at hpub
        exact absurd hp hpub
  | false =>
      rcases himp rfl with hnone | hnil
      · rw [readAllFinish] at hpub
        simp only [Bool.false_eq_true, if_false, hnone] at hpub
        exact absurd hp hpub
      · rw [readAllFinish] at hpub ⊢
        simp only [Bool.false_eq_true, if_false, hnil] at hpub ⊢
        by_cases hc : s1.connected = some true ∧ ¬ truthy s1.itemsConn
        · rw [if_pos hc] at hpub ⊢
          exact ⟨rfl, by rw [hp], rfl⟩
        · rw [if_neg hc] at hpub
          exact absurd hp hpub

/-- An example state for the C3 witness: three queued reads, the appliance
connected, the stored `connected` item not yet true. -/
def c3State : RAState :=
  { readAllActions := some
      [ActionResult.ok, ActionResult.ok, ActionResult.fail],
    readAllScheduled := some 0, retryDelay := none,
    connected := some true, itemsConn := some (Val.vBool false),
    publishes := [] }

/-- A second example for the C3 witness: a one-action queue that succeeds,
showing the only way a `connected=true` publish happens. -/
def c3Success : RAState :=
  { readAllActions := some [ActionResult.ok],
    readAllScheduled := some 0, retryDelay := none,
    connected := some true, itemsConn := some (Val.vBool false),
    publishes := [] }

/-- Witness for C3: a disconnection during the second read abandons the
third, schedules nothing and publishes nothing; the successful run is the
one that publishes `connected=true`. -/
theorem C3_disconnect_abandons_resync_witness :
    (c3State.readAllActions = some
        (List.replicate 1 ActionResult.ok ++ ActionResult.ok
          :: [ActionResult.fail])
      ∧ c3Success.readAllActions = some [ActionResult.ok]
      ∧ (readAllOnce c3Success none).1.publishes ≠ c3Success.publishes)
    ∧ ((readAllOnce c3State (some 1)).1.readAllActions = none
      ∧ (readAllOnce c3State (some 1)).2
          = [ActionResult.ok, ActionResult.ok]
      ∧ (readAllOnce c3State (some 1)).1.readAllScheduled = none
      ∧ (readAllOnce c3State (some 1)).1.publishes = []
      ∧ (readAllOnce c3State (some 1)).1.connected = some false
      ∧ (readAllOnce c3Success none).1.readAllActions = some []
      ∧ (readAllOnce c3Success none).1.publishes = [true]
      ∧ (readAllOnce c3Success none).1.itemsConn
          = some (Val.vBool true)) := by
  have h := C3_disconnect_abandons_resync c3State 1 ActionResult.ok
    [ActionResult.fail] (by decide)
  have hs := h.2.2.2.2.2 c3Success none [ActionResult.ok] rfl (by decide)
  refine ⟨⟨by decide, rfl, by decide⟩,
    h.1, h.2.1.trans (by decide), h.2.2.1, h.2.2.2.1, h.2.2.2.2.1,
    hs.1, hs.2.1, hs.2.2⟩

/-! ## Two appliance engine instances sharing the same transport object

The platform creates one `HomeConnectAPI` object and passes it to every
`HomeConnectDevice` (`new HomeConnectDevice(log, this.homeconnect, ha)`).
The item store, connectivity flag and resync queue are instance fields
(`this.items`, `this.connected`, `this.readAllActions`), but `readAll`
stores its retry delay on the transport object (`this.api.readAllRetryDelay`,
lines 551 and 563-568), which is shared between the instances. -/

/-- The per-instance fields of one appliance engine touched by `readAll`. -/
structure DevLocal where
  readAllActions : Option (List ActionResult)
  readAllScheduled : Option Nat
  connected : Option Bool
  itemsConn : Option Val
  publishes : List Bool
deriving DecidableEq, Repr

/-- Two appliance engine instances A and B holding references to the same
transport object, whose single `readAllRetryDelay` property they share. -/
structure TwoDevices where
  apiRetryDelay : Option Nat
  devA : DevLocal
  devB : DevLocal
deriving DecidableEq, Repr

/-- View one instance together with the shared delay as a `readAll` run
state. -/
def toRAState (d : DevLocal) (apiDelay : Option Nat) : RAState :=
  { readAllActions := d.readAllActions
    readAllScheduled := d.readAllScheduled
    retryDelay := apiDelay
    connected := d.connected
    itemsConn := d.itemsConn
    publishes := d.publishes }

/-- Project the per-instance fields back out of a `readAll` run state. -/
def ofRAState (r : RAState) : DevLocal :=
  { readAllActions := r.readAllActions
    readAllScheduled := r.readAllScheduled
    connected := r.connected
    itemsConn := r.itemsConn
    publishes := r.publishes }

/-- Instance A runs `readAll`: its own fields are updated in place and the
retry delay it read and wrote lands back on the shared transport object. -/
def readAllOnceA (s : TwoDevices) (dAt : Option Nat) : TwoDevices :=
  { s with
      devA := ofRAState (readAllOnce (toRAState s.devA s.apiRetryDelay) dAt).1
      apiRetryDelay :=
        (readAllOnce (toRAState s.devA s.apiRetryDelay) dAt).1.retryDelay }

/-- The delay instance B's next `readAll` failure will wait: the `catch`
branch computes it from `this.api.readAllRetryDelay`, i.e. from the shared
transport object. -/
def nextFailureWaitB (s : TwoDevices) : Nat := nextRetryDelay s.apiRetryDelay

/-- A fresh pair of instances: no failure has happened yet, A has a pending
one-action queue that is about to fail, B is idle. -/
def c8State : TwoDevices :=
  { apiRetryDelay := none
    devA :=
      { readAllActions := some [ActionResult.fail]
        readAllScheduled := some 0
        connected := some true
        itemsConn := some (Val.vBool true)
        publishes := [] }
    devB :=
      { readAllActions := none
        readAllScheduled := none
        connected := some true
        itemsConn := some (Val.vBool true)
        publishes := [] } }

/-- Counterexample to C8: before A's resync failure, B's next failure
would wait the 5 s minimum; after a single resync failure in A, B's next
failure waits 10 s — the delay counter lives on the shared transport
object, so a failure in A does not leave B's next delay unchanged. -/
theorem C8_counterexample :
    nextFailureWaitB c8State = CONNECTED_RETRY_MIN_DELAY
    ∧ nextFailureWaitB (readAllOnceA c8State none)
        = CONNECTED_RETRY_MIN_DELAY * CONNECTED_RETRY_FACTOR
    ∧ nextFailureWaitB (readAllOnceA c8State none)
        ≠ nextFailureWaitB c8State := by
  decide

/-- C8 amended: the item store, connectivity state and resync queue are
exclusively owned per instance — a `readAll` run of A never changes any
field of B — but the retry-delay counter is stored on the shared transport
object: a failing run of A overwrites it with the grown delay, so starting
from a fresh shared delay B's next failure waits
`CONNECTED_RETRY_MIN_DELAY * CONNECTED_RETRY_FACTOR` instead of the
`CONNECTED_RETRY_MIN_DELAY` it would have waited before A's failure. -/
theorem C8_shared_retry_delay (s : TwoDevices) (n : Nat)
    (rest : List ActionResult) (hconn : s.devA.connected = some true)
    (hq : s.devA.readAllActions
      = some (List.replicate n ActionResult.ok ++ ActionResult.fail :: rest))
    (hapi : s.apiRetryDelay = none) :
    (∀ (s' : TwoDevices) (dAt' : Option Nat),
      (readAllOnceA s' dAt').devB = s'.devB)
    ∧ (readAllOnceA s none).apiRetryDelay = some CONNECTED_RETRY_MIN_DELAY
    ∧ nextFailureWaitB s = CONNECTED_RETRY_MIN_DELAY
    ∧ nextFailureWaitB (readAllOnceA s none)
        = CONNECTED_RETRY_MIN_DELAY * CONNECTED_RETRY_FACTOR := by
  have hrun := readAllOnce_failRun (toRAState s.devA s.apiRetryDelay) n rest
    hconn hq
  refine ⟨fun s' dAt' => rfl, ?_, ?_, ?_⟩
  · rw [readAllOnceA, hrun]
    simp [toRAState, hapi]
    decide
  · rw [nextFailureWaitB, hapi]
    decide
  · rw [readAllOnceA, hrun]
    simp only [nextFailureWaitB]
    simp [toRAState, hapi]
    decide

/-- Witness for C8's amended statement at the concrete two-instance
state. -/
theorem C8_shared_retry_delay_witness :
    (c8State.devA.connected = some true
      ∧ c8State.devA.readAllActions = some
          (List.replicate 0 ActionResult.ok ++ ActionResult.fail :: [])
      ∧ c8State.apiRetryDelay = none)
    ∧ ((readAllOnceA c8State none).devB = c8State.devB
      ∧ (readAllOnceA c8State none).apiRetryDelay
          = some CONNECTED_RETRY_MIN_DELAY
      ∧ nextFailureWaitB c8State = CONNECTED_RETRY_MIN_DELAY
      ∧ nextFailureWaitB (readAllOnceA c8State none)
          = CONNECTED_RETRY_MIN_DELAY * CONNECTED_RETRY_FACTOR) := by
  have h := C8_shared_retry_delay c8State 0 [] rfl (by decide) rfl
  exact ⟨⟨rfl, by decide, rfl⟩, h.1 c8State none, h.2.1, h.2.2.1, h.2.2.2⟩

/-! ## Connectivity state machine (`setConnectedState`, lines 482-499, and
the `START`/`STOP` cases of `eventListener`, lines 656-669)

Timers are embedded as pending entries with absolute fire times:
`stopAt` is the `stopScheduled` timeout, `evalPending` is the
`setConnectedScheduled` zero-delay timeout together with the `isConnected`
argument captured by its closure.  `readAllActions`/`readAllScheduled` are
kept as presence flags; the execution of a scheduled `readAll` is modelled
separately above. -/

/-- The state of the connectivity machine of one device. -/
structure ConnMachine where
  connected : Option Bool
  itemsConn : Option Val
  stopAt : Option Nat
  evalPending : Option (Nat × Option Bool)
  readAllActions : Bool
  readAllScheduled : Bool
  falsePublishes : List Nat
deriving DecidableEq, Repr

/-- `onDisconnected` (lines 528-533): delete the pending read queue. -/
def onDisconnectedC (s : ConnMachine) : ConnMachine :=
  { s with readAllActions := false }

/-- `onConnected` (lines 502-525): if a queue is already pending, do
nothing; otherwise build the queue and schedule `readAll` unless a read is
already scheduled. -/
def onConnectedC (s : ConnMachine) : ConnMachine :=
  if s.readAllActions then s
  else { s with readAllActions := true, readAllScheduled := true }

/-- `setConnectedState(isConnected)` (lines 483-499): update the internal
flag when the argument is not `undefined`, run `onDisconnected` when it is
`false`, then debounce the evaluation callback — `clearTimeout` followed by
a fresh zero-delay `setTimeout` capturing `isConnected`. -/
def setConnectedStateC (s : ConnMachine) (now : Nat)
    (isConnected : Option Bool) : ConnMachine :=
  let s1 := if isConnected.isSome then { s with connected := isConnected }
    else s
  let s2 := if isConnected = some false then onDisconnectedC s1 else s1
  { s2 with evalPending := some (now, isConnected) }

/-- The debounced evaluation callback (lines 490-498): publish
`connected=false` when the device is not connected and the stored item is
not already `false`, then run `onConnected` unless the captured argument
was `false`. -/
def fireEval (s : ConnMachine) (now : Nat) (arg : Option Bool) :
    ConnMachine :=
  let s0 := { s with evalPending := none }
  let s1 :=
    if s0.connected ≠ some true ∧ s0.itemsConn ≠ some (Val.vBool false)
    then { s0 with itemsConn := some (Val.vBool false),
                   falsePublishes := s0.falsePublishes ++ [now] }
    else s0
  if arg ≠ some false then onConnectedC s1 else s1

/-- The `STOP` grace-timer callback (lines 664-668): treat the appliance as
disconnected. -/
def fireStopTimer (s : ConnMachine) (now : Nat) : ConnMachine :=
  setConnectedStateC { s with stopAt := none } now (some false)

/-- The `START` case of `eventListener` (lines 657-661):
`clearTimeout(stopScheduled)` then `setConnectedState()` with no
argument. -/
def evStartC (s : ConnMachine) (now : Nat) : ConnMachine :=
  setConnectedStateC { s with stopAt := none } now none

/-- The `STOP` case of `eventListener` (lines 662-669): arm the grace timer
— immediately when the stream ended with a transport error, else after
`EVENT_DISCONNECT_DELAY` seconds. -/
def evStopC (s : ConnMachine) (now : Nat) (err : Bool) : ConnMachine :=
  { s with stopAt := some (now + (if err then 0 else EVENT_DISCONNECT_DELAY * MS)) }

/-- Run every pending timer due at or before horizon `t`, earliest fire
time first (the zero-delay evaluation wins ties, matching insertion
order). -/
def runTimers : Nat → ConnMachine → Nat → ConnMachine
  | 0, s, _ => s
  | fuel + 1, s, t =>
      match s.evalPending, s.stopAt with
      | some (te, arg), some ts =>
          if te ≤ t ∧ te ≤ ts then runTimers fuel (fireEval s te arg) t
          else if ts ≤ t then runTimers fuel (fireStopTimer s ts) t
          else s
      | some (te, arg), none =>
          if te ≤ t then runTimers fuel (fireEval s te arg) t else s
      | none, some ts =>
          if ts ≤ t then runTimers fuel (fireStopTimer s ts) t else s
      | none, none => s

/-- C4: after a `STOP` event at time `t` on a connected device,
connectivity transitions to `false` exactly once (a single
`connected=false` publish) after the 3-second grace delay — immediately
when the stream ended with a transport error — unless a `START` event
arrives before the grace period elapses, in which case the pending
transition is cancelled and no `connected=false` publish ever occurs from
that `STOP`. -/
theorem C4_stop_grace_timer (s0 : ConnMachine) (t : Nat)
    (hconn : s0.connected = some true)
    (hitems : s0.itemsConn = some (Val.vBool true))
    (hstop : s0.stopAt = none) (heval : s0.evalPending = none)
    (hpub : s0.falsePublishes = []) :
    ((runTimers 4 (evStopC s0 t false)
        (t + EVENT_DISCONNECT_DELAY * MS)).falsePublishes
          = [t + EVENT_DISCONNECT_DELAY * MS]
      ∧ (runTimers 4 (evStopC s0 t false)
          (t + EVENT_DISCONNECT_DELAY * MS)).connected = some false
      ∧ (runTimers 4 (evStopC s0 t false)
          (t + EVENT_DISCONNECT_DELAY * MS)).stopAt = none
      ∧ (runTimers 4 (evStopC s0 t false)
          (t + EVENT_DISCONNECT_DELAY * MS)).evalPending = none)
    ∧ ((runTimers 4 (evStopC s0 t true) t).falsePublishes = [t]
      ∧ (runTimers 4 (evStopC s0 t true) t).connected = some false)
    ∧ (∀ tS T : Nat, t ≤ tS → tS < t + EVENT_DISCONNECT_DELAY * MS →
        (runTimers 4 (evStartC (runTimers 4 (evStopC s0 t false) tS) tS)
            T).falsePublishes = []
        ∧ (runTimers 4 (evStartC (runTimers 4 (evStopC s0 t false) tS) tS)
            T).connected = some true
        ∧ (runTimers 4 (evStartC (runTimers 4 (evStopC s0 t false) tS) tS)
            T).stopAt = none) := by
  refine ⟨?_, ?_, ?_⟩
  · simp [runTimers, evStopC, fireStopTimer, fireEval, setConnectedStateC,
      onDisconnectedC, onConnectedC, heval, hitems, hconn, hpub, hstop]
  · simp [runTimers, evStopC, fireStopTimer, fireEval, setConnectedStateC,
      onDisconnectedC, onConnectedC, heval, hitems, hconn, hpub, hstop]
  · intro tS T htS htS2
    have hlt : ¬ (t + EVENT_DISCONNECT_DELAY * MS ≤ tS) := by omega
    have hidle : runTimers 4 (evStopC s0 t false) tS
        = evStopC s0 t false := by
      rw [runTimers]
      simp [evStopC, heval, hlt]
    rw [hidle]
    by_cases hT : tS ≤ T
    · by_cases hra : s0.readAllActions
      · simp [runTimers, evStartC, evStopC, setConnectedStateC, fireEval,
          onConnectedC, hconn, hpub, hT, hra, heval]
      · simp [runTimers, evStartC, evStopC, setConnectedStateC, fireEval,
          onConnectedC, hconn, hpub, hT, hra, heval]
    · simp [runTimers, evStartC, evStopC, setConnectedStateC, fireEval,
        onConnectedC, hconn, hpub, hT, heval]

/-- A concrete connected machine for the C4 witness. -/
def c4State : ConnMachine :=
  { connected := some true
    itemsConn := some (Val.vBool true)
    stopAt := none
    evalPending := none
    readAllActions := true
    readAllScheduled := false
    falsePublishes := [] }

/-- Witness for C4 at `t = 100`, with the cancelling `START` at
`tS = 600`. -/
theorem C4_stop_grace_timer_witness :
    (c4State.connected = some true
      ∧ c4State.itemsConn = some (Val.vBool true)
      ∧ c4State.stopAt = none
      ∧ c4State.evalPending = none
      ∧ c4State.falsePublishes = []
      ∧ 100 ≤ 600
      ∧ 600 < 100 + EVENT_DISCONNECT_DELAY * MS)
    ∧ ((runTimers 4 (evStopC c4State 100 false)
          (100 + EVENT_DISCONNECT_DELAY * MS)).falsePublishes
            = [100 + EVENT_DISCONNECT_DELAY * MS]
      ∧ (runTimers 4 (evStopC c4State 100 false)
          (100 + EVENT_DISCONNECT_DELAY * MS)).connected = some false
      ∧ (runTimers 4 (evStopC c4State 100 true) 100).falsePublishes = [100]
      ∧ (runTimers 4
          (evStartC (runTimers 4 (evStopC c4State 100 false) 600) 600)
          50000).falsePublishes = []
      ∧ (runTimers 4
          (evStartC (runTimers 4 (evStopC c4State 100 false) 600) 600)
          50000).connected = some true
      ∧ (runTimers 4
          (evStartC (runTimers 4 (evStopC c4State 100 false) 600) 600)
          50000).stopAt = none) := by
  have h := C4_stop_grace_timer c4State 100 rfl rfl rfl rfl rfl
  have hc := h.2.2 600 50000 (by decide) (by decide)
  exact ⟨⟨rfl, rfl, rfl, rfl, rfl, by decide, by decide⟩,
    h.1.1, h.1.2.1, h.2.1.1, hc.1, hc.2.1, hc.2.2⟩

/-! ## Power-state inference (`inferPowerState`, lines 439-480)

The blackout timer variable `blackoutScheduled` is embedded as the
absolute time `blackoutUntil` at which the armed timeout clears itself;
it is truthy (armed) strictly before that time. -/

/-- The state seen by the two `inferPowerState` listeners. -/
structure InferState where
  blackoutUntil : Option Nat
  store : Store

/-- The `PowerState` listener (lines 443-448): every observed power-setting
update re-arms the blackout timer for `POWERSTATE_BLACKOUT` seconds. -/
def powerStateListener (s : InferState) (now : Nat) : InferState :=
  { s with blackoutUntil := some (now + POWERSTATE_BLACKOUT * MS) }

/-- Whether `blackoutScheduled` is truthy at time `now`: armed and the
timeout that clears it has not yet fired. -/
def blackoutArmed (s : InferState) (now : Nat) : Bool :=
  match s.blackoutUntil with
  | some u => now < u
  | none => false

/-- `operationPowerMap` (lines 453-457): map an operation state to the
power it implies, none for unmapped states. -/
def operationPowerMap (operationState : String) : Option Bool :=
  if operationState = "BSH.Common.EnumType.OperationState.Inactive" then
    some false
  else if operationState = "BSH.Common.EnumType.OperationState.Ready" then
    some true
  else if operationState = "BSH.Common.EnumType.OperationState.Run" then
    some true
  else none

/-- A synthetic publish performed by the listener: `this.update([item])`
writes the store and notifies the `PowerState` listeners — including
`inferPowerState`'s own blackout-arming listener. -/
def applySyntheticPublish (s : InferState) (now : Nat) (i : Item) :
    InferState :=
  powerStateListener { s with store := storeSet s.store i.key i.value } now

/-- The `OperationState` listener (lines 451-479): when the phase implies a
power state that contradicts the stored power setting, publish a synthetic
correction — suppressed (logged only) for the implied-on direction while
the blackout is armed.  Returns the new state and the synthetic items
published. -/
def operationStateListener (s : InferState) (now : Nat)
    (operationState : String) : InferState × List Item :=
  match operationPowerMap operationState with
  | none => (s, [])
  | some operationImpliesOn =>
      let stateIsOn := getItem s.store "BSH.Common.Setting.PowerState"
        = some (Val.vStr "BSH.Common.EnumType.PowerState.On")
      if operationImpliesOn ∧ ¬ stateIsOn then
        if blackoutArmed s now then (s, [])
        else
          (applySyntheticPublish s now
            ⟨"BSH.Common.Setting.PowerState",
             Val.vStr "BSH.Common.EnumType.PowerState.On"⟩,
           [⟨"BSH.Common.Setting.PowerState",
             Val.vStr "BSH.Common.EnumType.PowerState.On"⟩])
      else if (¬ operationImpliesOn) ∧ stateIsOn then
        (applySyntheticPublish s now
          ⟨"BSH.Common.Setting.PowerState",
           Val.vStr "BSH.Common.EnumType.PowerState.Standby"⟩,
         [⟨"BSH.Common.Setting.PowerState",
           Val.vStr "BSH.Common.EnumType.PowerState.Standby"⟩])
      else (s, [])

/-- An inference state inside an armed blackout window with the stored
power setting `On`. -/
def c5Armed : InferState :=
  { blackoutUntil := some 5000
    store := storeSet emptyStore "BSH.Common.Setting.PowerState"
        (Val.vStr "BSH.Common.EnumType.PowerState.On") }

/-- Counterexample to C5: an operation-phase update `Inactive` arriving at
time 4000 — while the blackout is armed — still publishes the synthetic
`Standby` item: only the implied-on correction is suppressed during the
blackout, the implied-off branch (lines 474-478) has no blackout check. -/
theorem C5_counterexample :
    blackoutArmed c5Armed 4000 = true
    ∧ (operationStateListener c5Armed 4000
        "BSH.Common.EnumType.OperationState.Inactive").2
      = [⟨"BSH.Common.Setting.PowerState",
          Val.vStr "BSH.Common.EnumType.PowerState.Standby"⟩]
    ∧ (operationStateListener c5Armed 4000
        "BSH.Common.EnumType.OperationState.Inactive").2 ≠ [] := by
  refine ⟨rfl, ?_, ?_⟩
  · rw [operationStateListener]
    simp [operationPowerMap, getItem, storeSet, c5Armed]
  · rw [operationStateListener]
    simp [operationPowerMap, getItem, storeSet, c5Armed]

/-- C5 amended: while the blackout window is armed (it stays armed for
`POWERSTATE_BLACKOUT` seconds after every observed power-setting update),
an operation phase implying power on with a stored power setting other
than `On` produces no synthetic publish (logged only); the implied-off
correction is not suppressed — a phase mapping to off with stored power
`On` publishes the synthetic `Standby` item even during the blackout; and
outside the blackout both corrections fire. -/
theorem C5_blackout_suppression (s : InferState) (now tArm : Nat)
    (op : String) :
    (∀ tq : Nat, tq < tArm + POWERSTATE_BLACKOUT * MS →
      blackoutArmed (powerStateListener s tArm) tq = true)
    ∧ (blackoutArmed s now = true →
        operationPowerMap op = some true →
        getItem s.store "BSH.Common.Setting.PowerState"
          ≠ some (Val.vStr "BSH.Common.EnumType.PowerState.On") →
        (operationStateListener s now op).2 = []
        ∧ (operationStateListener s now op).1 = s)
    ∧ (operationPowerMap op = some false →
        getItem s.store "BSH.Common.Setting.PowerState"
          = some (Val.vStr "BSH.Common.EnumType.PowerState.On") →
        (operationStateListener s now op).2
          = [⟨"BSH.Common.Setting.PowerState",
              Val.vStr "BSH.Common.EnumType.PowerState.Standby"⟩])
    ∧ (blackoutArmed s now = false →
        operationPowerMap op = some true →
        getItem s.store "BSH.Common.Setting.PowerState"
          ≠ some (Val.vStr "BSH.Common.EnumType.PowerState.On") →
        (operationStateListener s now op).2
          = [⟨"BSH.Common.Setting.PowerState",
              Val.vStr "BSH.Common.EnumType.PowerState.On"⟩])
    ∧ (operationPowerMap op = none →
        (operationStateListener s now op).2 = []) := by
  refine ⟨?_, ?_, ?_, ?_, ?_⟩
  · intro tq htq
    simp [blackoutArmed, powerStateListener]
    omega
  · intro harm hmap hstore
    rw [operationStateListener]
    simp only [hmap]
    rw [if_pos (by simpa using hstore), if_pos harm]
    exact ⟨rfl, rfl⟩
  · intro hmap hstore
    rw [operationStateListener]
    simp only [hmap]
    rw [if_neg (by simp [hstore]), if_pos (by simp [hstore])]
  · intro harm hmap hstore
    rw [operationStateListener]
    simp only [hmap]
    rw [if_pos (by simpa using hstore), if_neg (by simp [harm])]
  · intro hmap
    rw [operationStateListener]
    simp only [hmap]

/-- An inference state outside any blackout with the stored power setting
`Standby`. -/
def c5Idle : InferState :=
  { blackoutUntil := none
    store := storeSet emptyStore "BSH.Common.Setting.PowerState"
        (Val.vStr "BSH.Common.EnumType.PowerState.Standby") }

/-- Witness for C5's amended statement: arming keeps the window armed at
1999 ms; during the armed window at `c5Armed` a `Run` phase with stored
power `Standby` publishes nothing; outside the window the same phase
publishes the synthetic `On`; an unmapped phase publishes nothing. -/
theorem C5_blackout_suppression_witness :
    (blackoutArmed { c5Armed with
        store := c5Idle.store } 4000 = true
      ∧ operationPowerMap "BSH.Common.EnumType.OperationState.Run"
          = some true
      ∧ getItem c5Idle.store "BSH.Common.Setting.PowerState"
          ≠ some (Val.vStr "BSH.Common.EnumType.PowerState.On")
      ∧ blackoutArmed c5Idle 4000 = false
      ∧ 1999 < 0 + POWERSTATE_BLACKOUT * MS)
    ∧ (blackoutArmed (powerStateListener c5Idle 0) 1999 = true
      ∧ (operationStateListener { c5Armed with store := c5Idle.store } 4000
          "BSH.Common.EnumType.OperationState.Run").2 = []
      ∧ (operationStateListener c5Idle 4000
          "BSH.Common.EnumType.OperationState.Run").2
        = [⟨"BSH.Common.Setting.PowerState",
            Val.vStr "BSH.Common.EnumType.PowerState.On"⟩]
      ∧ (operationStateListener c5Idle 4000 "NotAPhase").2 = []) := by
  have h1 := C5_blackout_suppression
    ({ c5Armed with store := c5Idle.store }) 4000 0
    "BSH.Common.EnumType.OperationState.Run"
  have h2 := C5_blackout_suppression c5Idle 4000 0
    "BSH.Common.EnumType.OperationState.Run"
  have h3 := C5_blackout_suppression c5Idle 4000 0 "NotAPhase"
  have hne : getItem c5Idle.store "BSH.Common.Setting.PowerState"
      ≠ some (Val.vStr "BSH.Common.EnumType.PowerState.On") := by
    decide
  refine ⟨⟨rfl, rfl, hne, rfl, by decide⟩, ?_, ?_, ?_, ?_⟩
  · exact h2.1 1999 (by decide)
  · exact (h1.2.1 rfl rfl hne).1
  · exact h2.2.2.2.1 rfl rfl hne
  · exact h3.2.2.2.2 rfl

/-! ## Capability gate and mutating operations (lines 147-393, 582-634)

Each operation is embedded up to its first transport call: it either fails
synchronously in a gate check (no transport call is made), proceeds to a
transport call with the given arguments, or returns without any call
(`stopProgram` outside an active state).  Errors are the thrown `Error`
messages. -/

/-- The context the gate checks read: the scopes granted to the API
object, the appliance type (for appliance-specific scopes), the internal
connectivity flag and the item store. -/
structure GateCtx where
  apiScopes : List String
  applianceType : String
  connected : Option Bool
  store : Store

/-- `this.api.hasScope(scope)`. -/
def apiHasScope (ctx : GateCtx) (scope : String) : Bool :=
  ctx.apiScopes.contains scope

/-- `hasScope(scope)` (lines 631-634): the generic scope or the
appliance-type-specific scope. -/
def hasScope (ctx : GateCtx) (scope : String) : Bool :=
  apiHasScope ctx scope
    || apiHasScope ctx (ctx.applianceType ++ "-" ++ scope)

/-- `requireConnected` (lines 582-585). -/
def requireConnected (ctx : GateCtx) : Except String Unit :=
  if ctx.connected = some true then Except.ok ()
  else Except.error "The appliance is offline"

/-- `requireSettings` (lines 601-605). -/
def requireSettings (ctx : GateCtx) : Except String Unit :=
  if hasScope ctx "Settings" then requireConnected ctx
  else Except.error "Settings scope has not been authorised"

/-- `requireControl` (lines 608-612). -/
def requireControl (ctx : GateCtx) : Except String Unit :=
  if hasScope ctx "Control" then requireConnected ctx
  else Except.error "Control scope has not been authorised"

/-- `requireRemoteControl` (lines 615-620): local control must not be
active (truthy) and remote control must not be disabled (`=== false`). -/
def requireRemoteControl (ctx : GateCtx) : Except String Unit :=
  if truthy (getItem ctx.store "BSH.Common.Status.LocalControlActive") then
    Except.error "Appliance is being manually controlled locally"
  else if getItem ctx.store "BSH.Common.Status.RemoteControlActive"
      = some (Val.vBool false) then
    Except.error "Remote control not enabled on the appliance"
  else Except.ok ()

/-- `requireRemoteStart` (lines 623-628). -/
def requireRemoteStart (ctx : GateCtx) : Except String Unit :=
  match requireRemoteControl ctx with
  | Except.error e => Except.error e
  | Except.ok _ =>
      if getItem ctx.store "BSH.Common.Status.RemoteControlStartAllowed"
          = some (Val.vBool false) then
        Except.error "Remote start not enabled on the appliance"
      else Except.ok ()

/-- A call to the transport layer made by a mutating operation. -/
inductive TransportCall where
  | setSetting (k : String) (v : Val)
  | setSelectedProgram (p : String) (options : List Item)
  | setActiveProgram (p : String) (options : List Item)
  | stopActiveProgram
  | setCommand (c : String)
  | setActiveProgramOption (k : String) (v : Val)
deriving DecidableEq, Repr

/-- The behaviour of a mutating operation up to its first transport call:
a synchronous gate failure (no transport call made), a transport call with
the given arguments, or a silent return with no call at all. -/
inductive OpBehavior where
  | failed (msg : String)
  | call (c : TransportCall)
  | noCall
deriving DecidableEq, Repr

/-- `setSetting` (lines 147-156): `requireSettings`, `requireRemoteControl`
then `api.setSetting`. -/
def setSettingOp (ctx : GateCtx) (k : String) (v : Val) : OpBehavior :=
  match requireSettings ctx with
  | Except.error e => OpBehavior.failed e
  | Except.ok _ =>
      match requireRemoteControl ctx with
      | Except.error e => OpBehavior.failed e
      | Except.ok _ => OpBehavior.call (TransportCall.setSetting k v)

/-- `setSelectedProgram` (lines 241-260): `requireControl`,
`requireRemoteControl` then `api.setSelectedProgram`. -/
def setSelectedProgramOp (ctx : GateCtx) (p : String) (options : List Item) :
    OpBehavior :=
  match requireControl ctx with
  | Except.error e => OpBehavior.failed e
  | Except.ok _ =>
      match requireRemoteControl ctx with
      | Except.error e => OpBehavior.failed e
      | Except.ok _ =>
          OpBehavior.call (TransportCall.setSelectedProgram p options)

/-- `startProgram` (lines 295-316): `requireControl`, `requireRemoteStart`,
default the program key from the store when falsy, then
`api.setActiveProgram`. -/
def startProgramOp (ctx : GateCtx) (programKey : String)
    (options : List Item) : OpBehavior :=
  match requireControl ctx with
  | Except.error e => OpBehavior.failed e
  | Except.ok _ =>
      match requireRemoteStart ctx with
      | Except.error e => OpBehavior.failed e
      | Except.ok _ =>
          let key := if programKey = "" then
              match getItem ctx.store "BSH.Common.Root.SelectedProgram" with
              | some (Val.vStr p) => p
              | _ => ""
            else programKey
          OpBehavior.call (TransportCall.setActiveProgram key options)

/-- The operation states in which `stopProgram` acts (lines 322-327). -/
def activeStates : List String :=
  ["BSH.Common.EnumType.OperationState.DelayedStart",
   "BSH.Common.EnumType.OperationState.Run",
   "BSH.Common.EnumType.OperationState.Pause",
   "BSH.Common.EnumType.OperationState.ActionRequired"]

/-- `stopProgram` (lines 319-340): only in an active operation state does
it run `requireControl`, `requireRemoteControl` and
`api.stopActiveProgram`; otherwise it returns without any call. -/
def stopProgramOp (ctx : GateCtx) : OpBehavior :=
  let operationState :=
    match getItem ctx.store "BSH.Common.Status.OperationState" with
    | some (Val.vStr s) => s
    | _ => ""
  if activeStates.contains operationState then
    match requireControl ctx with
    | Except.error e => OpBehavior.failed e
    | Except.ok _ =>
        match requireRemoteControl ctx with
        | Except.error e => OpBehavior.failed e
        | Except.ok _ => OpBehavior.call TransportCall.stopActiveProgram
  else OpBehavior.noCall

/-- `pauseProgram` (lines 359-369): `requireControl`,
`requireRemoteControl` then `api.setCommand`. -/
def pauseProgramOp (ctx : GateCtx) (pause : Bool) : OpBehavior :=
  let command := if pause then "BSH.Common.Command.PauseProgram"
    else "BSH.Common.Command.ResumeProgram"
  match requireControl ctx with
  | Except.error e => OpBehavior.failed e
  | Except.ok _ =>
      match requireRemoteControl ctx with
      | Except.error e => OpBehavior.failed e
      | Except.ok _ => OpBehavior.call (TransportCall.setCommand command)

/-- `openDoor` (lines 372-381): `requireControl` then `api.setCommand` —
note there is no `requireRemoteControl` here. -/
def openDoorOp (ctx : GateCtx) (fully : Bool) : OpBehavior :=
  let command := if fully then "BSH.Common.Command.OpenDoor"
    else "BSH.Common.Command.PartlyOpenDoor"
  match requireControl ctx with
  | Except.error e => OpBehavior.failed e
  | Except.ok _ => OpBehavior.call (TransportCall.setCommand command)

/-- `setActiveProgramOption` (lines 384-393): `requireControl`,
`requireRemoteControl` then `api.setActiveProgramOption`. -/
def setActiveProgramOptionOp (ctx : GateCtx) (k : String) (v : Val) :
    OpBehavior :=
  match requireControl ctx with
  | Except.error e => OpBehavior.failed e
  | Except.ok _ =>
      match requireRemoteControl ctx with
      | Except.error e => OpBehavior.failed e
      | Except.ok _ =>
          OpBehavior.call (TransportCall.setActiveProgramOption k v)

/-- The two messages that make up the RemoteControlDeniedError class. -/
def remoteDeniedMsgs : List String :=
  ["Appliance is being manually controlled locally",
   "Remote control not enabled on the appliance"]

/-- A gate context with Settings and Control scopes, connected, local
control active on the physical unit, and a running program. -/
def c6Local : GateCtx :=
  { apiScopes := ["Settings", "Control"]
    applianceType := "Oven"
    connected := some true
    store := storeSet
      (storeSet emptyStore "BSH.Common.Status.LocalControlActive"
        (Val.vBool true))
      "BSH.Common.Status.OperationState"
      (Val.vStr "BSH.Common.EnumType.OperationState.Run") }

/-- Counterexample to C6: `openDoor` is a mutating operation (it issues the
`setCommand` transport call), yet with local control active it does not
fail — it proceeds straight to the transport call, because it never checks
remote control. -/
theorem C6_counterexample :
    truthy (getItem c6Local.store "BSH.Common.Status.LocalControlActive")
      = true
    ∧ openDoorOp c6Local true
      = OpBehavior.call (TransportCall.setCommand "BSH.Common.Command.OpenDoor")
    ∧ (∀ msg ∈ remoteDeniedMsgs, openDoorOp c6Local true
        ≠ OpBehavior.failed msg) := by
  refine ⟨by decide, by decide, by decide⟩

/-- C6 amended: every mutating operation except `openDoor` — setting
write, program selection, program start, program stop (in an active
state), pause/resume command, active-program option — checks synchronously
before any transport call that local control is not active and that remote
control is enabled (plus remote start for starting programs) and signals
the corresponding RemoteControlDeniedError-class message with no transport
call made when any of these checks fails; `openDoor` checks only Control
scope and connectivity and issues its transport call even while local
control is active or remote control is disabled.  The three blocks cover a
context with local control active, a context with remote control disabled,
and a context with only remote start disabled. -/
theorem C6_remote_control_gate (ctx : GateCtx)
    (hset : hasScope ctx "Settings" = true)
    (hctl : hasScope ctx "Control" = true)
    (hconn : ctx.connected = some true)
    (hlocal : truthy
      (getItem ctx.store "BSH.Common.Status.LocalControlActive") = true) :
    ((∀ k v, setSettingOp ctx k v
        = OpBehavior.failed "Appliance is being manually controlled locally")
      ∧ (∀ p options, setSelectedProgramOp ctx p options
        = OpBehavior.failed "Appliance is being manually controlled locally")
      ∧ (∀ p options, startProgramOp ctx p options
        = OpBehavior.failed "Appliance is being manually controlled locally")
      ∧ ((activeStates.contains
          (match getItem ctx.store "BSH.Common.Status.OperationState" with
           | some (Val.vStr s) => s
           | _ => "") = true) →
         stopProgramOp ctx
          = OpBehavior.failed "Appliance is being manually controlled locally")
      ∧ (∀ pause, pauseProgramOp ctx pause
        = OpBehavior.failed "Appliance is being manually controlled locally")
      ∧ (∀ k v, setActiveProgramOptionOp ctx k v
        = OpBehavior.failed "Appliance is being manually controlled locally")
      ∧ (∀ fully, openDoorOp ctx fully
        = OpBehavior.call (TransportCall.setCommand
            (if fully then "BSH.Common.Command.OpenDoor"
             else "BSH.Common.Command.PartlyOpenDoor"))))
    ∧ (∀ ctx2 : GateCtx, hasScope ctx2 "Settings" = true →
        hasScope ctx2 "Control" = true →
        ctx2.connected = some true →
        truthy (getItem ctx2.store "BSH.Common.Status.LocalControlActive")
          = false →
        getItem ctx2.store "BSH.Common.Status.RemoteControlActive"
          = some (Val.vBool false) →
        (∀ k v, setSettingOp ctx2 k v
          = OpBehavior.failed "Remote control not enabled on the appliance")
        ∧ (∀ p options, setSelectedProgramOp ctx2 p options
          = OpBehavior.failed "Remote control not enabled on the appliance")
        ∧ (∀ p options, startProgramOp ctx2 p options
          = OpBehavior.failed "Remote control not enabled on the appliance")
        ∧ ((activeStates.contains
            (match getItem ctx2.store "BSH.Common.Status.OperationState" with
             | some (Val.vStr s) => s
             | _ => "") = true) →
           stopProgramOp ctx2
            = OpBehavior.failed "Remote control not enabled on the appliance")
        ∧ (∀ pause, pauseProgramOp ctx2 pause
          = OpBehavior.failed "Remote control not enabled on the appliance")
        ∧ (∀ k v, setActiveProgramOptionOp ctx2 k v
          = OpBehavior.failed "Remote control not enabled on the appliance")
        ∧ (∀ fully, openDoorOp ctx2 fully
          = OpBehavior.call (TransportCall.setCommand
              (if fully then "BSH.Common.Command.OpenDoor"
               else "BSH.Common.Command.PartlyOpenDoor"))))
    ∧ (∀ ctx3 : GateCtx, hasScope ctx3 "Control" = true →
        ctx3.connected = some true →
        truthy (getItem ctx3.store "BSH.Common.Status.LocalControlActive")
          = false →
        getItem ctx3.store "BSH.Common.Status.RemoteControlActive"
          ≠ some (Val.vBool false) →
        getItem ctx3.store "BSH.Common.Status.RemoteControlStartAllowed"
          = some (Val.vBool false) →
        ∀ p options, startProgramOp ctx3 p options
          = OpBehavior.failed "Remote start not enabled on the appliance") := by
  have hrc : requireRemoteControl ctx
      = Except.error "Appliance is being manually controlled locally" := by
    rw [requireRemoteControl, if_pos hlocal]
  have hs : requireSettings ctx = Except.ok () := by
    rw [requireSettings, if_pos hset, requireConnected, if_pos hconn]
  have hc : requireControl ctx = Except.ok () := by
    rw [requireControl, if_pos hctl, requireConnected, if_pos hconn]
  have hrs : requireRemoteStart ctx
      = Except.error "Appliance is being manually controlled locally" := by
    rw [requireRemoteStart, hrc]
  refine ⟨⟨?_, ?_, ?_, ?_, ?_, ?_, ?_⟩, ?_, ?_⟩
  · intro k v
    rw [setSettingOp, hs, hrc]
  · intro p options
    rw [setSelectedProgramOp, hc, hrc]
  · intro p options
    rw [startProgramOp, hc, hrs]
  · intro hactive
    rw [stopProgramOp]
    simp only [hactive, if_pos, if_true, hc, hrc]
  · intro pause
    rw [pauseProgramOp, hc, hrc]
  · intro k v
    rw [setActiveProgramOptionOp, hc, hrc]
  · intro fully
    rw [openDoorOp, hc]
  · intro ctx2 hset2 hctl2 hconn2 hlocal2 hremote2
    have hs2 : requireSettings ctx2 = Except.ok () := by
      rw [requireSettings, if_pos hset2, requireConnected, if_pos hconn2]
    have hc2 : requireControl ctx2 = Except.ok () := by
      rw [requireControl, if_pos hctl2, requireConnected, if_pos hconn2]
    have hrc2 : requireRemoteControl ctx2
        = Except.error "Remote control not enabled on the appliance" := by
      rw [requireRemoteControl, hlocal2]
      simp only [Bool.false_eq_true, if_false, ite_false]
      rw [if_pos hremote2]
    have hrs2 : requireRemoteStart ctx2
        = Except.error "Remote control not enabled on the appliance" := by
      rw [requireRemoteStart, hrc2]
    refine ⟨?_, ?_, ?_, ?_, ?_, ?_, ?_⟩
    · intro k v
      rw [setSettingOp, hs2, hrc2]
    · intro p options
      rw [setSelectedProgramOp, hc2, hrc2]
    · intro p options
      rw [startProgramOp, hc2, hrs2]
    · intro hactive2
      rw [stopProgramOp]
      simp only [hactive2, if_pos, if_true, hc2, hrc2]
    · intro pause
      rw [pauseProgramOp, hc2, hrc2]
    · intro k v
      rw [setActiveProgramOptionOp, hc2, hrc2]
    · intro fully
      rw [openDoorOp, hc2]
  · intro ctx3 hctl3 hconn3 hlocal3 hremote3 hstart3 p options
    have hc3 : requireControl ctx3 = Except.ok () := by
      rw [requireControl, if_pos hctl3, requireConnected, if_pos hconn3]
    have hrc3 : requireRemoteControl ctx3 = Except.ok () := by
      rw [requireRemoteControl, hlocal3]
      simp only [Bool.false_eq_true, if_false, ite_false]
      rw [if_neg hremote3]
    have hrs3 : requireRemoteStart ctx3
        = Except.error "Remote start not enabled on the appliance" := by
      rw [requireRemoteStart, hrc3]
      simp [hstart3]
    rw [startProgramOp, hc3, hrs3]

/-- A gate context with remote control disabled, local control not active,
and a running program. -/
def c6Remote : GateCtx :=
  { apiScopes := ["Settings", "Control"]
    applianceType := "Oven"
    connected := some true
    store := storeSet
      (storeSet emptyStore "BSH.Common.Status.RemoteControlActive"
        (Val.vBool false))
      "BSH.Common.Status.OperationState"
      (Val.vStr "BSH.Common.EnumType.OperationState.Run") }

/-- A gate context with remote control enabled but remote start disabled
(and local control not active). -/
def c6Start : GateCtx :=
  { apiScopes := ["Settings", "Control"]
    applianceType := "Oven"
    connected := some true
    store := storeSet
      (storeSet emptyStore "BSH.Common.Status.RemoteControlActive"
        (Val.vBool true))
      "BSH.Common.Status.RemoteControlStartAllowed" (Val.vBool false) }

/-- Witness for C6's amended statement at the concrete contexts: local
control active, remote control disabled (each listed operation, plus the
`openDoor` exception, in both contexts), and remote start disabled
failing `startProgram`. -/
theorem C6_remote_control_gate_witness :
    (hasScope c6Local "Settings" = true
      ∧ hasScope c6Local "Control" = true
      ∧ c6Local.connected = some true
      ∧ truthy (getItem c6Local.store
          "BSH.Common.Status.LocalControlActive") = true
      ∧ hasScope c6Remote "Settings" = true
      ∧ hasScope c6Remote "Control" = true
      ∧ c6Remote.connected = some true
      ∧ truthy (getItem c6Remote.store
          "BSH.Common.Status.LocalControlActive") = false
      ∧ getItem c6Remote.store "BSH.Common.Status.RemoteControlActive"
          = some (Val.vBool false)
      ∧ hasScope c6Start "Control" = true
      ∧ c6Start.connected = some true
      ∧ truthy (getItem c6Start.store
          "BSH.Common.Status.LocalControlActive") = false
      ∧ getItem c6Start.store "BSH.Common.Status.RemoteControlActive"
          ≠ some (Val.vBool false)
      ∧ getItem c6Start.store "BSH.Common.Status.RemoteControlStartAllowed"
          = some (Val.vBool false))
    ∧ (setSettingOp c6Local "BSH.Common.Setting.PowerState"
          (Val.vStr "BSH.Common.EnumType.PowerState.On")
        = OpBehavior.failed "Appliance is being manually controlled locally"
      ∧ setSelectedProgramOp c6Local "Dishcare.Dishwasher.Program.Eco50" []
        = OpBehavior.failed "Appliance is being manually controlled locally"
      ∧ startProgramOp c6Local "Dishcare.Dishwasher.Program.Eco50" []
        = OpBehavior.failed "Appliance is being manually controlled locally"
      ∧ stopProgramOp c6Local
        = OpBehavior.failed "Appliance is being manually controlled locally"
      ∧ pauseProgramOp c6Local true
        = OpBehavior.failed "Appliance is being manually controlled locally"
      ∧ setActiveProgramOptionOp c6Local "BSH.Common.Option.Duration"
          (Val.vStr "600")
        = OpBehavior.failed "Appliance is being manually controlled locally"
      ∧ openDoorOp c6Local true
        = OpBehavior.call
            (TransportCall.setCommand "BSH.Common.Command.OpenDoor")
      ∧ setSettingOp c6Remote "BSH.Common.Setting.PowerState"
          (Val.vStr "BSH.Common.EnumType.PowerState.On")
        = OpBehavior.failed "Remote control not enabled on the appliance"
      ∧ setSelectedProgramOp c6Remote "Dishcare.Dishwasher.Program.Eco50" []
        = OpBehavior.failed "Remote control not enabled on the appliance"
      ∧ startProgramOp c6Remote "Dishcare.Dishwasher.Program.Eco50" []
        = OpBehavior.failed "Remote control not enabled on the appliance"
      ∧ stopProgramOp c6Remote
        = OpBehavior.failed "Remote control not enabled on the appliance"
      ∧ pauseProgramOp c6Remote true
        = OpBehavior.failed "Remote control not enabled on the appliance"
      ∧ setActiveProgramOptionOp c6Remote "BSH.Common.Option.Duration"
          (Val.vStr "600")
        = OpBehavior.failed "Remote control not enabled on the appliance"
      ∧ openDoorOp c6Remote true
        = OpBehavior.call
            (TransportCall.setCommand "BSH.Common.Command.OpenDoor")
      ∧ startProgramOp c6Start "Dishcare.Dishwasher.Program.Eco50" []
        = OpBehavior.failed "Remote start not enabled on the appliance") := by
  have h := C6_remote_control_gate c6Local (by decide) (by decide) rfl
    (by decide)
  have h2 := h.2.1 c6Remote (by decide) (by decide) rfl (by decide)
    (by decide)
  have h3 := h.2.2 c6Start (by decide) rfl (by decide) (by decide)
    (by decide) "Dishcare.Dishwasher.Program.Eco50" []
  refine ⟨⟨by decide, by decide, rfl, by decide, by decide, by decide, rfl,
    by decide, by decide, by decide, rfl, by decide, by decide, by decide⟩,
    ?_, ?_, ?_, ?_, ?_, ?_, ?_, ?_, ?_, ?_, ?_, ?_, ?_, ?_, h3⟩
  · exact h.1.1 "BSH.Common.Setting.PowerState"
      (Val.vStr "BSH.Common.EnumType.PowerState.On")
  · exact h.1.2.1 "Dishcare.Dishwasher.Program.Eco50" []
  · exact h.1.2.2.1 "Dishcare.Dishwasher.Program.Eco50" []
  · exact h.1.2.2.2.1 (by decide)
  · exact h.1.2.2.2.2.1 true
  · exact h.1.2.2.2.2.2.1 "BSH.Common.Option.Duration" (Val.vStr "600")
  · exact (h.1.2.2.2.2.2.2 true).trans (by decide)
  · exact h2.1 "BSH.Common.Setting.PowerState"
      (Val.vStr "BSH.Common.EnumType.PowerState.On")
  · exact h2.2.1 "Dishcare.Dishwasher.Program.Eco50" []
  · exact h2.2.2.1 "Dishcare.Dishwasher.Program.Eco50" []
  · exact h2.2.2.2.1 (by decide)
  · exact h2.2.2.2.2.1 true
  · exact h2.2.2.2.2.2.1 "BSH.Common.Option.Duration" (Val.vStr "600")
  · exact (h2.2.2.2.2.2.2 true).trans (by decide)

/-! ## Teardown (`stop`, lines 45-48, and `ApplianceGeneric.unregister`)

`unregister` calls `device.stop()` then `device.removeAllListeners()`.
The engine's pending timers are embedded as presence flags. -/

/-- The engine's pending timers and listener registrations at teardown
time. -/
structure DeviceTimers where
  stopEvents : Bool
  stopScheduled : Bool
  setConnectedScheduled : Bool
  readAllScheduled : Bool
  blackoutScheduled : Bool
  listenerCount : Nat
deriving DecidableEq, Repr

/-- `stop()` (lines 46-48): the complete body of the method —
`this.stopEvents = true` — and nothing else. -/
def stopDevice (s : DeviceTimers) : DeviceTimers :=
  { s with stopEvents := true }

/-- `removeAllListeners()` on the device `EventEmitter`. -/
def removeAllListeners (s : DeviceTimers) : DeviceTimers :=
  { s with listenerCount := 0 }

/-- `unregister()` (`ApplianceGeneric`, lines 122-125): `device.stop()`
followed by `device.removeAllListeners()`. -/
def unregister (s : DeviceTimers) : DeviceTimers :=
  removeAllListeners (stopDevice s)

/-- A device at teardown time with every engine timer pending. -/
def c7Pending : DeviceTimers :=
  { stopEvents := false
    stopScheduled := true
    setConnectedScheduled := true
    readAllScheduled := true
    blackoutScheduled := true
    listenerCount := 3 }

/-- Evaluation of the teardown code at the C7 failing input: `unregister`
detaches the listeners and stops event consumption, but every pending
timer — the STOP grace timer, the debounced connectivity evaluation, the
scheduled resynchronization retry and the power blackout timer — is still
pending afterwards: `stop()` cancels none of them, so a scheduled
`readAll` retry still fires (and calls the transport) after teardown. -/
theorem C7_stop_cancels_no_timer :
    (unregister c7Pending).listenerCount = 0
    ∧ (unregister c7Pending).stopEvents = true
    ∧ (unregister c7Pending).stopScheduled = true
    ∧ (unregister c7Pending).setConnectedScheduled = true
    ∧ (unregister c7Pending).readAllScheduled = true
    ∧ (unregister c7Pending).blackoutScheduled = true
    ∧ (∀ s : DeviceTimers,
        (stopDevice s).stopScheduled = s.stopScheduled
        ∧ (stopDevice s).setConnectedScheduled = s.setConnectedScheduled
        ∧ (stopDevice s).readAllScheduled = s.readAllScheduled
        ∧ (stopDevice s).blackoutScheduled = s.blackoutScheduled) := by
  exact ⟨rfl, rfl, rfl, rfl, rfl, rfl, fun s => ⟨rfl, rfl, rfl, rfl⟩⟩

/-! ## Serialised operation coalescing (`ApplianceGeneric.serialise`,
lines 166-222)

One logical operation identity is modelled (`serialiseOps` lookup for
other identities is independent bookkeeping).  A caller is identified by a
number; the list of queued resolvers holds the caller identities in push
order.  `Object.assign(op.pending.options, options)` merges the newly
supplied option pairs over the pending options object, later-supplied
values overriding. -/

/-- A pending coalesced request: the merged options object, the queued
resolver/rejecter pairs (by caller identity), and whether `setTimeout` has
been issued for it. -/
structure PendingReq where
  options : Store
  resolvers : List Nat
  scheduled : Bool

/-- The state of one serialised operation identity. -/
structure SerOp where
  pendingReq : Option PendingReq
  activeReq : Option PendingReq

/-- The serialised operation with nothing queued or running. -/
def emptySerOp : SerOp := { pendingReq := none, activeReq := none }

/-- `Object.assign(target, options)`: write each supplied pair over the
target object, in supply order. -/
def mergeOptions (target : Store) (options : List (String × Val)) : Store :=
  options.foldl (fun st p => storeSet st p.1 p.2) target

/-- One call to `serialise(operation, options)` (lines 167-222) made by
caller `c`: coalesce into the pending request when one exists (merging the
options and pushing the caller's resolvers), otherwise create a fresh
pending request, scheduled only when neither a schedule nor an active
request exists. -/
def serialiseCall (s : SerOp) (c : Nat) (options : List (String × Val)) :
    SerOp :=
  match s.pendingReq with
  | some p =>
      let p2 : PendingReq :=
        { p with
            options := mergeOptions p.options options
            resolvers := p.resolvers ++ [c] }
      { s with pendingReq := some p2 }
  | none =>
      let p2 : PendingReq :=
        { options := mergeOptions emptyStore options
          resolvers := [c]
          scheduled := s.activeReq.isNone }
      { s with pendingReq := some p2 }

/-- The first half of `doOperation` (lines 192-196), up to the `await`:
make the pending request active (so more calls can be queued) and hand its
merged options to the single transport call. -/
def doOperationStart (s : SerOp) : SerOp × Option Store :=
  match s.pendingReq with
  | none => (s, none)
  | some p => ({ s with activeReq := some p, pendingReq := none },
      some p.options)

/-- The outcome of the single transport call. -/
inductive CallResult where
  | success (v : Val)
  | failure (e : String)
deriving DecidableEq, Repr

/-- The second half of `doOperation` (lines 198-211): resolve every queued
promise with the call's result (or reject every one with its error), then
clear the active request and schedule any request that was queued while
the call was in flight.  Returns the settled promises as
(caller, outcome) pairs. -/
def doOperationFinish (s : SerOp) (result : CallResult) :
    SerOp × List (Nat × CallResult) :=
  match s.activeReq with
  | none => (s, [])
  | some a =>
      let settled := a.resolvers.map (fun c => (c, result))
      match s.pendingReq with
      | some p =>
          ({ pendingReq := some { p with scheduled := true }
             activeReq := none }, settled)
      | none => ({ pendingReq := none, activeReq := none }, settled)

/-- The value the merged options object holds for key `k`: the last value
supplied for `k`, if any. -/
def lastSupplied (options : List (String × Val)) (k : String) :
    Option Val :=
  options.foldl (fun acc p => if p.1 = k then some p.2 else acc) none

/-- The last-wins fold computing `lastSupplied`, for any starting
accumulator. -/
theorem lastSupplied_foldl (k : String) :
    ∀ (l : List (String × Val)) (acc : Option Val),
    l.foldl (fun a q => if q.1 = k then some q.2 else a) acc
      = match lastSupplied l k with
        | some v => some v
        | none => acc := by
  intro l
  induction l with
  | nil => intro acc; rfl
  | cons q rest ih =>
      intro acc
      rw [List.foldl_cons, ih]
      have hq : lastSupplied (q :: rest) k
          = match lastSupplied rest k with
            | some v => some v
            | none => if q.1 = k then some q.2 else none := by
        rw [lastSupplied, List.foldl_cons]
        exact ih _
      rw [hq]
      cases lastSupplied rest k with
      | none =>
          by_cases h : q.1 = k
          · simp [h]
          · simp [h]
      | some v => rfl

/-- Merging reads back as: the last supplied value for the key when one
was supplied, the target's value otherwise — so coalesced options carry
the most recently supplied value for every key. -/
theorem mergeOptions_lookup (options : List (String × Val)) (target : Store)
    (k : String) :
    mergeOptions target options k
      = match lastSupplied options k with
        | some v => some v
        | none => target k := by
  induction options generalizing target with
  | nil => rfl
  | cons p rest ih =>
      rw [mergeOptions, List.foldl_cons, ← mergeOptions, ih]
      have hp : lastSupplied (p :: rest) k
          = match lastSupplied rest k with
            | some v => some v
            | none => if p.1 = k then some p.2 else none := by
        rw [lastSupplied, List.foldl_cons]
        exact lastSupplied_foldl k rest _
      rw [hp]
      cases lastSupplied rest k with
      | none =>
          by_cases h : p.1 = k
          · simp [storeSet, h]
          · have h2 : ¬ (k = p.1) := fun hc => h hc.symm
            simp [storeSet, h, h2]
      | some v => rfl

/-- C9: two calls to the same serialised operation made before the first
transport call starts are coalesced into a single pending request in call
order, whose options are the merge carrying the most recently supplied
value for every key; the single transport call uses exactly those merged
options; every caller's promise settles together with that one call's
result (or error); and a call landing while a request is active is queued
but not scheduled, so only one execution is ever in flight at a time (the
`finally` block schedules it only after the active call completes). -/
theorem C9_serialise_coalescing (cA cB : Nat)
    (opts1 opts2 : List (String × Val)) (result : CallResult) :
    ((serialiseCall (serialiseCall emptySerOp cA opts1) cB opts2).pendingReq.map
        PendingReq.resolvers = some [cA, cB])
    ∧ (∀ k, ((serialiseCall (serialiseCall emptySerOp cA opts1)
          cB opts2).pendingReq.map (fun p => p.options k))
        = some (match lastSupplied opts2 k with
                | some v => some v
                | none =>
                    match lastSupplied opts1 k with
                    | some v => some v
                    | none => none))
    ∧ ((doOperationStart (serialiseCall (serialiseCall emptySerOp cA opts1)
          cB opts2)).2
        = some (mergeOptions (mergeOptions emptyStore opts1) opts2))
    ∧ ((doOperationFinish (doOperationStart (serialiseCall (serialiseCall
          emptySerOp cA opts1) cB opts2)).1 result).2
        = [(cA, result), (cB, result)])
    ∧ (∀ (s : SerOp) (c : Nat) (opts : List (String × Val)) (a : PendingReq),
        s.activeReq = some a → s.pendingReq = none →
        ((serialiseCall s c opts).pendingReq.map PendingReq.scheduled
            = some false
          ∧ (serialiseCall s c opts).activeReq = some a))
    ∧ (∀ (s : SerOp) (a p : PendingReq) (r : CallResult),
        s.activeReq = some a → s.pendingReq = some p →
        ((doOperationFinish s r).1.pendingReq.map PendingReq.scheduled
            = some true
          ∧ (doOperationFinish s r).1.activeReq = none)) := by
  refine ⟨rfl, ?_, rfl, rfl, ?_, ?_⟩
  · intro k
    simp only [serialiseCall, emptySerOp, Option.map_some']
    rw [mergeOptions_lookup, mergeOptions_lookup]
    cases lastSupplied opts2 k with
    | some v => rfl
    | none =>
        cases lastSupplied opts1 k with
        | some v => rfl
        | none => rfl
  · intro s c opts a ha hp
    rw [serialiseCall, hp]
    simp [ha]
  · intro s a p r ha hp
    rw [doOperationFinish, ha, hp]
    simp

/-- A pending request queued by caller 7 while another request was
active. -/
def c9Queued : PendingReq :=
  { options := emptyStore
    resolvers := [7]
    scheduled := false }

/-- A serialised-operation state with an active transport call in
flight. -/
def c9Active : SerOp :=
  { pendingReq := none
    activeReq := some c9Queued }

/-- The same state after a third call arrived during the in-flight
transport call. -/
def c9ActiveQueued : SerOp :=
  { pendingReq := some c9Queued
    activeReq := some c9Queued }

/-- Witness for C9 at two concrete calls setting the same program option
(the second supplying the newer temperature value). -/
theorem C9_serialise_coalescing_witness :
    (c9Active.activeReq = some c9Queued
      ∧ c9Active.pendingReq = none
      ∧ c9ActiveQueued.activeReq = some c9Queued
      ∧ c9ActiveQueued.pendingReq = some c9Queued
      ∧ lastSupplied [("Option.Temperature", Val.vStr "90"),
          ("Option.Mode", Val.vStr "Eco")] "Option.Temperature"
        = some (Val.vStr "90"))
    ∧ (((serialiseCall (serialiseCall emptySerOp 1
            [("Option.Temperature", Val.vStr "80")]) 2
            [("Option.Temperature", Val.vStr "90"),
             ("Option.Mode", Val.vStr "Eco")]).pendingReq.map
          PendingReq.resolvers = some [1, 2])
      ∧ ((serialiseCall (serialiseCall emptySerOp 1
            [("Option.Temperature", Val.vStr "80")]) 2
            [("Option.Temperature", Val.vStr "90"),
             ("Option.Mode", Val.vStr "Eco")]).pendingReq.map
          (fun p => p.options "Option.Temperature"))
          = some (some (Val.vStr "90"))
      ∧ ((doOperationFinish (doOperationStart (serialiseCall (serialiseCall
            emptySerOp 1 [("Option.Temperature", Val.vStr "80")]) 2
            [("Option.Temperature", Val.vStr "90"),
             ("Option.Mode", Val.vStr "Eco")])).1
            (CallResult.success (Val.vStr "done"))).2
          = [(1, CallResult.success (Val.vStr "done")),
             (2, CallResult.success (Val.vStr "done"))])
      ∧ ((serialiseCall c9Active 3
            [("Option.Temperature", Val.vStr "95")]).pendingReq.map
          PendingReq.scheduled = some false)
      ∧ ((doOperationFinish c9ActiveQueued
            (CallResult.success (Val.vStr "done"))).1.pendingReq.map
          PendingReq.scheduled = some true)) := by
  have h := C9_serialise_coalescing 1 2
    [("Option.Temperature", Val.vStr "80")]
    [("Option.Temperature", Val.vStr "90"), ("Option.Mode", Val.vStr "Eco")]
    (CallResult.success (Val.vStr "done"))
  have h5 := h.2.2.2.2.1 c9Active 3 [("Option.Temperature", Val.vStr "95")]
    c9Queued rfl rfl
  have h6 := h.2.2.2.2.2 c9ActiveQueued c9Queued c9Queued
    (CallResult.success (Val.vStr "done")) rfl rfl
  refine ⟨⟨rfl, rfl, rfl, rfl, by decide⟩,
    h.1, ?_, h.2.2.2.1, h5.1, h6.1⟩
  exact (h.2.1 "Option.Temperature").trans (by decide)

end HomeConnect
